import Mathlib

/-!
Verification development for the BiaBot client-intake chatbot
(`backend/app/services/chat_parser.py`, `chat_agent_service.py`,
`flow_definitions.py`, `intake_service.py`, `models/schemas.py`).

Strings are modelled as `List Char` (`Str`).  Python's `SequenceMatcher`
similarity and the `datetime.strptime`/`fromisoformat` fallbacks are
standard-library collaborators and are modelled as explicit function
parameters (`sim`, `absFB`).  Today's date is an explicit parameter
(days since 1970-01-01; Python `date.weekday()` is then `(n + 3) % 7`
with Monday = 0).
-/

abbrev Str := List Char

/-- Literal helper: the character list of a Lean string literal. -/
def str (s : String) : Str := s.data

/-- Python `str.lower` on ASCII letters (the code only lowercases ASCII input). -/
def pyLower (c : Char) : Char :=
  if 'A' ≤ c ∧ c ≤ 'Z' then Char.ofNat (c.toNat + 32) else c

def lowerStr (s : Str) : Str := s.map pyLower

/-- Python whitespace for `str.strip` and `\s`. -/
def pySpace (c : Char) : Bool :=
  c = ' ' ∨ c = '\t' ∨ c = '\n' ∨ c = '\r' ∨ c = '\x0b' ∨ c = '\x0c'

/-- Python `str.strip()`. -/
def pyStrip (s : Str) : Str :=
  ((s.dropWhile pySpace).reverse.dropWhile pySpace).reverse

/-- `\d` on ASCII (enumerated, which equals `'0' ≤ c ∧ c ≤ '9'`). -/
def isDigitChar (c : Char) : Bool :=
  ['0', '1', '2', '3', '4', '5', '6', '7', '8', '9'].any (fun d => d = c)

def isAsciiLetter (c : Char) : Bool := ('a' ≤ c ∧ c ≤ 'z') ∨ ('A' ≤ c ∧ c ≤ 'Z')

/-- Regex word character `\w` restricted to ASCII: `[A-Za-z0-9_]`. -/
def isWordChar (c : Char) : Bool := isAsciiLetter c ∨ isDigitChar c ∨ c = '_'

/-- `[a-z0-9]` after lowering, the characters kept by `normalize_text`. -/
def isLowerAlnum (c : Char) : Bool := ('a' ≤ c ∧ c ≤ 'z') ∨ ('0' ≤ c ∧ c ≤ '9')

/-- Collapse each maximal run of spaces to a single space
(used to model `re.sub(r"[^a-z0-9]+", " ", ·)` after mapping the
non-alphanumeric characters to a space). -/
def squeezeSpaces : List Char → List Char
  | [] => []
  | [c] => [c]
  | c :: d :: rest =>
    if c = ' ' ∧ d = ' ' then squeezeSpaces (d :: rest)
    else c :: squeezeSpaces (d :: rest)

/-- `normalize_text` of `chat_parser.py`:
`re.sub(r"[^a-z0-9]+", " ", value.lower()).strip()`. -/
def normalizeText (s : Str) : Str :=
  pyStrip (squeezeSpaces ((lowerStr s).map (fun c => if isLowerAlnum c then c else ' ')))

/-- Case-insensitive literal match at the head of `s`; returns the rest on success. -/
def matchesAtCI : Str → Str → Option Str
  | [], s => some s
  | _ :: _, [] => none
  | p :: ps, c :: cs => if pyLower c = pyLower p then matchesAtCI ps cs else none

/-- Exact (case-sensitive) literal match at the head of `s`. -/
def startsWithStr : Str → Str → Bool
  | _, [] => true
  | [], _ :: _ => false
  | c :: cs, p :: ps => c = p ∧ startsWithStr cs ps

/-- Python `needle in hay` (case-sensitive substring test). -/
def strHas : Str → Str → Bool
  | [], needle => needle = []
  | c :: cs, needle => startsWithStr (c :: cs) needle || strHas cs needle

/-- Word boundary on the left of the current position, given the previous char. -/
def boundaryB : Option Char → Bool
  | none => true
  | some c => ¬ isWordChar c

/-- Does lowercase word `w` occur at the head of `s`, delimited on the right by
a non-word character or the end of input?  (`s` is compared case-insensitively.) -/
def startsBounded (w s : Str) : Bool :=
  match matchesAtCI w s with
  | none => false
  | some [] => true
  | some (d :: _) => ¬ isWordChar d

/-- `re.search(r"\b(w)\b", s)` for one alternation word `w`
(compared case-insensitively, `w` given lowercase). -/
def searchWordGo (w : Str) : Option Char → Str → Bool
  | _, [] => false
  | prev, c :: rest =>
    (boundaryB prev && startsBounded w (c :: rest)) || searchWordGo w (some c) rest

def searchWord (w : Str) (s : Str) : Bool := searchWordGo w none s

/-- `re.search(r"\b(w1|w2|...)\b", s)` as a Boolean (any alternative matches). -/
def searchAny (ws : List Str) (s : Str) : Bool := ws.any (fun w => searchWord w s)

/-- Full (case-insensitive) match of `s` against an alternation of literals. -/
def fullmatchAnyCI (lits : List Str) (s : Str) : Bool :=
  lits.any (fun w => lowerStr s = w)

/- Pattern literal sets of `chat_parser.py` / `chat_agent_service.py`
(all given lowercase; the patterns carry `re.IGNORECASE`). -/

def skipLits : List Str := [str "skip", str "none", str "na", str "n/a", str "not applicable"]

def yesLits : List Str := [str "yes", str "y", str "yeah", str "yep", str "sure", str "affirmative"]

def noLits : List Str := [str "no", str "n", str "nope", str "negative"]

def confirmLits : List Str :=
  [str "yes", str "y", str "correct", str "right", str "exactly", str "that works", str "looks good"]

def rejectLits : List Str := [str "no", str "n", str "not that", str "wrong", str "change it"]

def submitWords : List Str :=
  [str "yes", str "y", str "submit", str "confirm", str "ok", str "okay", str "send", str "go ahead"]

def restartWords : List Str :=
  [str "restart", str "start over", str "reset", str "edit", str "change",
   str "new request", str "another request"]

/-- `CONFIRM_PATTERN.search` (anchored `^(...)$`, so a search equals a full
match up to one trailing newline absorbed by `$`). -/
def confirmMatch (s : Str) : Bool :=
  fullmatchAnyCI confirmLits s ||
    (match s.reverse with
     | '\n' :: r => fullmatchAnyCI confirmLits r.reverse
     | _ => false)

/-- `REJECT_PATTERN.search` (anchored, same convention). -/
def rejectMatch (s : Str) : Bool :=
  fullmatchAnyCI rejectLits s ||
    (match s.reverse with
     | '\n' :: r => fullmatchAnyCI rejectLits r.reverse
     | _ => false)

/-- A rational given in lowest terms (kernel-reducible: no `Nat.gcd`
normalization is ever run when constructing or comparing these values). -/
def qConst (n : Int) (d : Nat) (h1 : d ≠ 0) (h2 : n.natAbs.Coprime d) : ℚ :=
  ⟨n, d, h1, h2⟩

/-- 0.99 -/
def c099 : ℚ := qConst 99 100 (by norm_num) (by norm_num)
/-- 0.95 -/
def c095 : ℚ := qConst 19 20 (by norm_num) (by norm_num)
/-- 0.92 -/
def c092 : ℚ := qConst 23 25 (by norm_num) (by norm_num)
/-- 0.9 -/
def c090 : ℚ := qConst 9 10 (by norm_num) (by norm_num)
/-- 0.86, `RULE_ACCEPT_CONFIDENCE` -/
def c086 : ℚ := qConst 43 50 (by norm_num) (by norm_num)
/-- 0.8 -/
def c080 : ℚ := qConst 4 5 (by norm_num) (by norm_num)
/-- 0.78, `LLM_ACCEPT_CONFIDENCE` -/
def c078 : ℚ := qConst 39 50 (by norm_num) (by norm_num)
/-- 0.55, `CLARIFY_CONFIDENCE` -/
def c055 : ℚ := qConst 11 20 (by norm_num) (by norm_num)

/-- The keyword → option-fragment alias table `ALIAS_MAP`. -/
def aliasMap : List (Str × Str) :=
  [(str "campaign", str "campaign"), (str "graphic", str "graphic"),
   (str "newsletter", str "newsletter"), (str "press", str "press release"),
   (str "other", str "other"), (str "urgent", str "urgent"),
   (str "soon", str "soon"), (str "standard", str "standard")]

/-- Inner loop of `_match_by_similarity`: walk the options keeping the best
score; an exact normalized match returns immediately with score 1.
`sim` models `difflib.SequenceMatcher(None, a, b).ratio()`. -/
def simLoop (sim : Str → Str → ℚ) (ni : Str) :
    List Str → Option Str → ℚ → Option Str × ℚ
  | [], best, bestScore => (best, bestScore)
  | o :: rest, best, bestScore =>
    let no := normalizeText o
    if no = ni then (some o, 1)
    else
      let score : ℚ :=
        if strHas no ni ∨ strHas ni no then c092 else sim ni no
      if score > bestScore then simLoop sim ni rest (some o) score
      else simLoop sim ni rest best bestScore

/-- `_match_by_similarity` of `chat_parser.py`. -/
def matchBySimilarity (sim : Str → Str → ℚ) (inputText : Str) (options : List Str) :
    Option Str × ℚ :=
  let ni := normalizeText inputText
  if ni = [] then (none, 0)
  else simLoop sim ni options none 0

/-- First option whose normalized form has both keys present: models the
`normalized_options` dict built by `match_option` (later duplicate keys
overwrite earlier ones in a Python dict comprehension). -/
def normalizedLookup (options : List Str) (key : Str) : Option Str :=
  (options.reverse.find? (fun o => normalizeText o = key))

/-- Alias fallback of `match_option`: first alias whose keyword occurs in the
normalized input paired with the first option containing the alias. -/
def aliasFallback (ni : Str) : List (Str × Str) → List Str → Option Str
  | [], _ => none
  | (kw, al) :: rest, options =>
    if strHas ni kw then
      match options.find? (fun o => strHas (normalizeText o) al) with
      | some o => some o
      | none => aliasFallback ni rest options
    else aliasFallback ni rest options

/-- Tail of `match_option`: similarity match, then the alias table. -/
def matchOptionTail (sim : Str → Str → ℚ) (inputText : Str) (options : List Str) :
    Option Str × ℚ :=
  match matchBySimilarity sim inputText options with
  | (some o, score) => (some o, score)
  | (none, _) =>
    match aliasFallback (normalizeText inputText) aliasMap options with
    | some o => (some o, c078)
    | none => (none, 0)

/-- `match_option` of `chat_parser.py`. -/
def matchOption (sim : Str → Str → ℚ) (inputText : Str) (options : List Str) :
    Option Str × ℚ :=
  if options = [] then (none, 0)
  else
    let stripped := pyStrip inputText
    match normalizedLookup options (str "yes"), normalizedLookup options (str "no") with
    | some yesOpt, some noOpt =>
      if fullmatchAnyCI yesLits stripped then (some yesOpt, c099)
      else if fullmatchAnyCI noLits stripped then (some noOpt, c099)
      else matchOptionTail sim inputText options
    | _, _ => matchOptionTail sim inputText options

/-! ### Date parsing (`parse_date_input`) -/

/-- Is the pair of letters an ordinal suffix (`st|nd|rd|th`), case-insensitively? -/
def isOrdPair (a b : Char) : Bool :=
  (pyLower a = 's' ∧ pyLower b = 't') ∨ (pyLower a = 'n' ∧ pyLower b = 'd') ∨
  (pyLower a = 'r' ∧ pyLower b = 'd') ∨ (pyLower a = 't' ∧ pyLower b = 'h')

/-- If `l` starts with an ordinal suffix followed by a word boundary, return the
last suffix character and the remainder. -/
def ordSuffixSplit : List Char → Option (Char × List Char)
  | a :: b :: rest =>
    if isOrdPair a b then
      match rest with
      | [] => some (b, [])
      | d :: _ => if isWordChar d then none else some (b, rest)
    else none
  | [_] => none
  | [] => none

/-- One left-to-right pass of `re.sub(r"\b(\d+)(st|nd|rd|th)\b", r"\1", ·)`.
`fuel` bounds the recursion (each step consumes at least one character, so
`fuel = length` suffices); `prev` is the previously scanned character, used
for the left word boundary. -/
def ordSub (fuel : Nat) (prev : Option Char) (l : List Char) : List Char :=
  match fuel with
  | 0 => l
  | fuel + 1 =>
    match l with
    | [] => []
    | c :: rest =>
      if boundaryB prev ∧ isDigitChar c then
        let digits := c :: rest.takeWhile isDigitChar
        let after := rest.dropWhile isDigitChar
        match ordSuffixSplit after with
        | some (lastSuf, rest2) => digits ++ ordSub fuel (some lastSuf) rest2
        | none => c :: ordSub fuel (some c) rest
      else c :: ordSub fuel (some c) rest

/-- The ordinal-suffix stripping substitution of `parse_date_input`. -/
def stripOrdinals (l : List Char) : List Char := ordSub l.length none l

/-- Hinnant's civil-from-days conversion (proleptic Gregorian calendar),
matching Python's `date` arithmetic.  `z` is days since 1970-01-01. -/
def civilFromDays (z0 : Int) : Int × Nat × Nat :=
  let z := z0 + 719468
  let era := (if 0 ≤ z then z else z - 146096) / 146097
  let doe := z - era * 146097
  let yoe := (doe - doe / 1460 + doe / 36524 - doe / 146096) / 365
  let y := yoe + era * 400
  let doy := doe - (365 * yoe + yoe / 4 - yoe / 100)
  let mp := (5 * doy + 2) / 153
  let d := doy - (153 * mp + 2) / 5 + 1
  let m := mp + (if mp < 10 then 3 else -9)
  ((if m ≤ 2 then y + 1 else y), m.toNat, d.toNat)

/-- Fixed-width decimal rendering (for ISO formatting). -/
def pad2 (n : Nat) : Str :=
  [Char.ofNat ('0'.toNat + n / 10 % 10), Char.ofNat ('0'.toNat + n % 10)]

def pad4 (n : Nat) : Str :=
  [Char.ofNat ('0'.toNat + n / 1000 % 10), Char.ofNat ('0'.toNat + n / 100 % 10),
   Char.ofNat ('0'.toNat + n / 10 % 10), Char.ofNat ('0'.toNat + n % 10)]

/-- ISO `YYYY-MM-DD` rendering of y/m/d (Python `date.isoformat`). -/
def isoOfYmd (y m d : Nat) : Str := pad4 y ++ [ '-' ] ++ pad2 m ++ [ '-' ] ++ pad2 d

/-- `date.isoformat()` of a day number (days since 1970-01-01). -/
def isoOfDay (n : Nat) : Str :=
  match civilFromDays (Int.ofNat n) with
  | (y, m, d) => isoOfYmd y.toNat m d

/-- Python `date.weekday()` of a day number: Monday = 0 (1970-01-01 was a Thursday). -/
def weekdayOf (n : Nat) : Nat := (n + 3) % 7

/-- The weekday-name table of `parse_date_input` (`monday → 0`, ..., `sunday → 6`). -/
def weekdayTable : List (Str × Nat) :=
  [(str "monday", 0), (str "tuesday", 1), (str "wednesday", 2), (str "thursday", 3),
   (str "friday", 4), (str "saturday", 5), (str "sunday", 6)]

/-- `re.fullmatch(r"next\s+(monday|...|sunday)", lowered)`:
returns the target weekday index on a match. -/
def nextWeekdayMatch (lowered : Str) : Option Nat :=
  match matchesAtCI (str "next") lowered with
  | none => none
  | some rest =>
    let sp := rest.takeWhile pySpace
    let name := rest.dropWhile pySpace
    if sp = [] then none
    else
      match weekdayTable.find? (fun e => e.1 = name) with
      | some e => some e.2
      | none => none

/-- Days ahead for `next <weekday>`: `(target - today.weekday()) % 7`, wrapped
to a full week when zero. -/
def nextDelta (today target : Nat) : Nat :=
  let wd := weekdayOf today
  let d0 := (target + 7 - wd) % 7
  if d0 = 0 then 7 else d0

/-- `\d{4}-\d{2}-\d{2}` full match. -/
def isIsoShape : Str → Bool
  | [a, b, c, d, h1, e, f, h2, g, i] =>
    isDigitChar a ∧ isDigitChar b ∧ isDigitChar c ∧ isDigitChar d ∧ h1 = '-' ∧
    isDigitChar e ∧ isDigitChar f ∧ h2 = '-' ∧ isDigitChar g ∧ isDigitChar i
  | _ => false

/-- `parse_date_input` of `chat_parser.py`.

`today` is the current date as days since 1970-01-01.  `absFB` models the
final absolute-format fallbacks (`datetime.strptime` over `DATE_FORMATS`,
then `datetime.fromisoformat`), which are Python standard-library
collaborators; it receives the cleaned text and returns the ISO rendering of
the parsed result, or `none`. -/
def parseDateInput (absFB : Str → Option Str) (today : Nat) (inputText : Str) :
    Option Str :=
  let cleaned := pyStrip (stripOrdinals inputText)
  if cleaned = [] then none
  else
    let lowered := lowerStr cleaned
    if lowered = str "today" then some (isoOfDay today)
    else if lowered = str "tomorrow" ∨ lowered = str "tmr" ∨ lowered = str "tmrw" then
      some (isoOfDay (today + 1))
    else
      match nextWeekdayMatch lowered with
      | some target => some (isoOfDay (today + nextDelta today target))
      | none =>
        if isIsoShape cleaned then some cleaned
        else absFB cleaned

/-! ### List, link and client-code extraction -/

def pyUpper (c : Char) : Char :=
  if 'a' ≤ c ∧ c ≤ 'z' then Char.ofNat (c.toNat - 32) else c

def upperStr (s : Str) : Str := s.map pyUpper

/-- Split on every character satisfying `p` (each separator starts a new part). -/
def splitOnPred (p : Char → Bool) : Str → List Str
  | [] => [[]]
  | c :: rest =>
    match splitOnPred p rest with
    | [] => if p c then [[], []] else [[c]]
    | h :: t => if p c then [] :: h :: t else (c :: h) :: t

/-- `parse_list_input`: split on `[,\n;]`, strip parts, keep the non-empty ones. -/
def parseListInput (s : Str) : List Str :=
  ((splitOnPred (fun c => c = ',' ∨ c = '\n' ∨ c = ';') s).map pyStrip).filter (· ≠ [])

/-- `dedupe`: drop later values whose uppercase form was already seen. -/
def dedupeGo (seen : List Str) : List Str → List Str
  | [] => []
  | v :: rest =>
    let key := upperStr v
    if seen.any (· = key) then dedupeGo seen rest
    else v :: dedupeGo (key :: seen) rest

def dedupe (values : List Str) : List Str := dedupeGo [] values

/-- Separator class `[\s,;]` excluded from URL and filename bodies. -/
def urlSep (c : Char) : Bool := pySpace c ∨ c = ',' ∨ c = ';'

/-- Match `https?://[^\s,;]+` at the head; returns (match, rest). -/
def urlAt (s : Str) : Option (Str × Str) :=
  if (matchesAtCI (str "http") s).isSome then
    let r1 := s.drop 4
    let schemeLen : Option Nat :=
      match r1 with
      | c :: tail =>
        if pyLower c = 's' ∧ (matchesAtCI (str "://") tail).isSome then some 4
        else if (matchesAtCI (str "://") r1).isSome then some 3
        else none
      | [] => none
    match schemeLen with
    | none => none
    | some n =>
      let afterScheme := r1.drop n
      let body := afterScheme.takeWhile (fun c => ¬ urlSep c)
      if body = [] then none
      else some (s.take (4 + n + body.length), afterScheme.drop body.length)
  else none

/-- `URL_PATTERN.findall` (non-overlapping, left to right). -/
def urlFindAll (fuel : Nat) (s : Str) : List Str :=
  match fuel, s with
  | 0, _ => []
  | _ + 1, [] => []
  | fuel + 1, c :: rest =>
    match urlAt (c :: rest) with
    | some (m, r) => m :: urlFindAll fuel r
    | none => urlFindAll fuel rest

def urlMatches (s : Str) : List Str := urlFindAll s.length s

/-- The filename-extension allow-list of `FILE_PATTERN`
(longer variants first, as the greedy `x?`/`e?` options prefer them). -/
def extList : List Str :=
  [str "pdf", str "docx", str "doc", str "pptx", str "ppt", str "xlsx", str "xls",
   str "csv", str "png", str "jpeg", str "jpg", str "gif", str "zip", str "txt"]

/-- If an allow-listed extension occurs at the head of `u` followed by a word
boundary (inside a token whose following character is a separator), return its
length. -/
def extCheckLen (u : Str) : Option Nat :=
  match extList.find? (fun e =>
    match matchesAtCI e u with
    | some [] => true
    | some (d :: _) => ¬ isWordChar d
    | none => false) with
  | some e => some e.length
  | none => none

/-- Match `[^\s,;]+\.(ext)\b` at the head of `s` (the left `\b` is checked by
the caller); returns (match, rest).  The regex's greedy body selects the last
extension position in the current token. -/
def fileAt (s : Str) : Option (Str × Str) :=
  let t := s.takeWhile (fun c => ¬ urlSep c)
  let dotCheck : Nat → Bool := fun i =>
    decide (1 ≤ i) && (t.drop i).headI = '.' && (extCheckLen (t.drop (i + 1))).isSome
  match ((List.range t.length).reverse.find? dotCheck) with
  | none => none
  | some i =>
    match extCheckLen (t.drop (i + 1)) with
    | none => none
    | some n =>
      let len := i + 1 + n
      some (t.take len, s.drop len)

/-- `FILE_PATTERN.findall`: scan left to right, starting a match only at a
word boundary. -/
def fileScan (fuel : Nat) (prev : Option Char) (s : Str) : List Str :=
  match fuel, s with
  | 0, _ => []
  | _ + 1, [] => []
  | fuel + 1, c :: rest =>
    let lb := match prev with
      | none => isWordChar c
      | some p => isWordChar p ≠ isWordChar c
    if lb then
      match fileAt (c :: rest) with
      | some (m, r) =>
        match m.getLast? with
        | some lc => m :: fileScan fuel (some lc) r
        | none => fileScan fuel (some c) rest
      | none => fileScan fuel (some c) rest
    else fileScan fuel (some c) rest

def fileMatches (s : Str) : List Str := fileScan s.length none s

/-- `parse_links_and_files` of `chat_parser.py`. -/
def parseLinksAndFiles (s : Str) : List Str :=
  let extracted := urlMatches s ++ fileMatches s
  if extracted ≠ [] then dedupe extracted else parseListInput s

/-- Client-code character class `[A-Za-z0-9_-]`. -/
def isCodeChar (c : Char) : Bool := isWordChar c ∨ c = '-'

/-- `CLIENT_CODE_BLACKLIST`. -/
def codeBlacklist : List Str :=
  [str "my", str "client", str "code", str "id", str "is", str "name", str "the",
   str "for", str "hello", str "hi", str "please", str "thanks", str "support"]

/-- Chop a maximal code-character run the way `findall` with `{3,64}` does:
pieces of up to 64, discarding a remainder shorter than 3. -/
def chopRun (fuel : Nat) (run : Str) : List Str :=
  match fuel with
  | 0 => []
  | fuel + 1 =>
    if run.length < 3 then [] else run.take 64 :: chopRun fuel (run.drop 64)

/-- `CLIENT_CODE_TOKEN.findall`: maximal `[A-Za-z0-9_-]` runs, chopped. -/
def codeTokenScan (fuel : Nat) (s : Str) : List Str :=
  match fuel, s with
  | 0, _ => []
  | _ + 1, [] => []
  | fuel + 1, c :: rest =>
    if isCodeChar c then
      let run := c :: rest.takeWhile isCodeChar
      chopRun run.length run ++ codeTokenScan fuel (rest.dropWhile isCodeChar)
    else codeTokenScan fuel rest

def codeTokens (s : Str) : List Str := codeTokenScan s.length s

/-- Greedy `([A-Za-z0-9_-]{3,64})\b` capture with backtracking on the right
word boundary; `r` is positioned at the capture start. -/
def codeCapture (r : Str) : Option (Str × Str) :=
  let run := r.takeWhile isCodeChar
  let kmax := min run.length 64
  let okAt : Nat → Bool := fun back =>
    let k := kmax - back
    decide (3 ≤ k) &&
      (match (r.take k).getLast? with
       | none => false
       | some lc =>
         match r.drop k with
         | [] => isWordChar lc
         | d :: _ => isWordChar lc ≠ isWordChar d)
  match (List.range (kmax + 1)).find? okAt with
  | some back => some (r.take (kmax - back), r.drop (kmax - back))
  | none => none

/-- After a `client id/code | id | code` key: `\s*(?:is|=|:)?\s*` then the
capture, trying the operator alternatives in regex order. -/
def codeCaptureAfterKey (s : Str) : Option (Str × Str) :=
  let r := s.dropWhile pySpace
  let tryOp : Str → Option (Str × Str) := fun op =>
    match matchesAtCI op r with
    | none => none
    | some r2 => codeCapture (r2.dropWhile pySpace)
  match tryOp (str "is") with
  | some res => some res
  | none =>
    match tryOp (str "=") with
    | some res => some res
    | none =>
      match tryOp (str ":") with
      | some res => some res
      | none => codeCapture r

/-- The key alternation `client\s*(?:id|code)|id|code` at the head of `s`. -/
def codeKeyAt (s : Str) : Option Str :=
  match matchesAtCI (str "client") s with
  | some r1 =>
    let r2 := r1.dropWhile pySpace
    match matchesAtCI (str "id") r2 with
    | some r3 => some r3
    | none =>
      match matchesAtCI (str "code") r2 with
      | some r3 => some r3
      | none =>
        match matchesAtCI (str "id") s with
        | some r => some r
        | none => matchesAtCI (str "code") s
  | none =>
    match matchesAtCI (str "id") s with
    | some r => some r
    | none => matchesAtCI (str "code") s

/-- `CODE_PHRASE.findall`: scan for a word-bounded key phrase followed by an
optional operator and a code capture. -/
def codePhraseScan (fuel : Nat) (prev : Option Char) (s : Str) : List Str :=
  match fuel, s with
  | 0, _ => []
  | _ + 1, [] => []
  | fuel + 1, c :: rest =>
    let hit : Option (Str × Str) :=
      if boundaryB prev then
        match codeKeyAt (c :: rest) with
        | some afterKey => codeCaptureAfterKey afterKey
        | none => none
      else none
    match hit with
    | some (cap, r) =>
      match cap.getLast? with
      | some lc => cap :: codePhraseScan fuel (some lc) r
      | none => codePhraseScan fuel (some c) rest
    | none => codePhraseScan fuel (some c) rest

def codePhraseMatches (s : Str) : List Str := codePhraseScan s.length none s

/-- `extract_client_code_candidates` of `chat_parser.py`. -/
def extractClientCodeCandidates (inputText : Str) : List Str :=
  let phase1 := (codePhraseMatches inputText).map (fun m => upperStr (pyStrip m))
  let phase1 := phase1.filter (· ≠ [])
  let phase2 :=
    ((codeTokens inputText).filter (fun tok =>
      ¬ codeBlacklist.any (· = lowerStr tok) ∧
        tok.any isAsciiLetter ∧ tok.any isDigitChar)).map upperStr
  dedupe (phase1 ++ phase2)

/-! ### Free-text prefix cleanup and `normalize_answer` -/

/-- `^(?:my|our|the)?\s*{token}\s*(?:is|=|:)?\s*` applied at the start of
`value`; returns the remainder after the match, trying the leading-word
alternatives and the operator alternatives in regex order. -/
def introSubOnce (tok : Str) (value : Str) : Option Str :=
  let afterTok : Str → Option Str := fun r1 =>
    match matchesAtCI tok (r1.dropWhile pySpace) with
    | none => none
    | some r3 =>
      let r4 := r3.dropWhile pySpace
      match matchesAtCI (str "is") r4 with
      | some r5 => some (r5.dropWhile pySpace)
      | none =>
        match matchesAtCI (str "=") r4 with
        | some r5 => some (r5.dropWhile pySpace)
        | none =>
          match matchesAtCI (str ":") r4 with
          | some r5 => some (r5.dropWhile pySpace)
          | none => some r4
  let tryLead : Str → Option Str := fun pre =>
    match matchesAtCI pre value with
    | none => none
    | some r1 => afterTok r1
  match tryLead (str "my") with
  | some r => some r
  | none =>
    match tryLead (str "our") with
    | some r => some r
    | none =>
      match tryLead (str "the") with
      | some r => some r
      | none => afterTok value

/-- Character class `[a-z0-9_\s-]` (with `re.IGNORECASE`). -/
def isGenericIntroChar (c : Char) : Bool :=
  isAsciiLetter c ∨ isDigitChar c ∨ c = '_' ∨ pySpace c ∨ c = '-'

/-- `^(?:my|our|the)\s+[a-z0-9_\s-]{2,40}\s+(?:is|=|:)\s*` applied at the
start of `value` (the middle run is matched greedily with backtracking). -/
def genericIntroSub (value : Str) : Option Str :=
  let afterLead : Str → Option Str := fun r1 =>
    if r1.takeWhile pySpace = [] then none
    else
      let r2 := r1.dropWhile pySpace
      let maxRun := min (r2.takeWhile isGenericIntroChar).length 40
      let tryK : Nat → Option Str := fun k =>
        if k < 2 then none
        else
          let r3 := r2.drop k
          if r3.takeWhile pySpace = [] then none
          else
            let r4 := r3.dropWhile pySpace
            match matchesAtCI (str "is") r4 with
            | some r5 => some (r5.dropWhile pySpace)
            | none =>
              match matchesAtCI (str "=") r4 with
              | some r5 => some (r5.dropWhile pySpace)
              | none =>
                match matchesAtCI (str ":") r4 with
                | some r5 => some (r5.dropWhile pySpace)
                | none => none
      match ((List.range (maxRun + 1)).find? (fun back => (tryK (maxRun - back)).isSome)) with
      | some back => tryK (maxRun - back)
      | none => none
  let tryLead : Str → Option Str := fun pre =>
    match matchesAtCI pre value with
    | none => none
    | some r1 => afterLead r1
  match tryLead (str "my") with
  | some r => some r
  | none =>
    match tryLead (str "our") with
    | some r => some r
    | none => tryLead (str "the")

/-- The token list tried by `clean_field_prefix`: the humanized question id,
then the normalized label. -/
def introTokens (questionId : Str) (questionLabel : Option Str) : List Str :=
  pyStrip (questionId.map (fun c => if c = '_' then ' ' else c)) ::
    (match questionLabel with
     | some lab => [normalizeText lab]
     | none => [])

/-- The per-token loop of `clean_field_prefix`. -/
def introLoop (value : Str) : List Str → Option Str
  | [] => none
  | tok :: rest =>
    if tok = [] then introLoop value rest
    else
      match introSubOnce tok value with
      | some r =>
        let updated := pyStrip r
        if updated ≠ [] ∧ updated ≠ value then some updated else introLoop value rest
      | none => introLoop value rest

/-- `clean_field_prefix` of `chat_parser.py` (leading "my/our/the <field> is"
style cleanup of a free-text answer). -/
def cleanFieldIntro (questionId : Str) (questionLabel : Option Str) (inputText : Str) : Str :=
  let value := pyStrip inputText
  if value = [] then value
  else
    match introLoop value (introTokens questionId questionLabel) with
    | some updated => updated
    | none =>
      match genericIntroSub value with
      | some r =>
        let updated := pyStrip r
        if updated = [] then value else updated
      | none => value

/-- A Python value as stored in answers / normalization results. -/
inductive PyVal
  | vNone
  | vStr (s : Str)
  | vList (l : List Str)
  | vNat (n : Nat)
deriving DecidableEq

instance : Inhabited PyVal := ⟨PyVal.vNone⟩

/-- Python `round(x, 2)` (ties on exact half-cents follow Mathlib's `round`;
the source only rounds the fixed scores 1.0 / 0.99 / 0.92 / 0.78 and an
opaque similarity, so the tie-breaking rule is never observable here). -/
def pyRound2 (q : ℚ) : ℚ := ((round (q * 100) : ℤ) : ℚ) / 100

/-- The verdict dictionary returned by `normalize_answer`. -/
structure NormResult where
  ok : Bool
  normalizedValue : PyVal
  matchedOption : Option Str
  confidence : ℚ
  message : Option Str
  options : List Str
  entities : List (Str × PyVal)
deriving DecidableEq

/-- Python truthiness of an optional string. -/
def optTruthy : Option Str → Bool
  | some s => s ≠ []
  | none => false

/-- `normalize_answer` of `chat_parser.py`. -/
def normalizeAnswer (sim : Str → Str → ℚ) (absFB : Str → Option Str) (today : Nat)
    (answerText questionId questionType : Str) (required : Bool)
    (options : List Str) (questionLabel : Option Str) : NormResult :=
  let raw := pyStrip answerText
  let isSkip := fullmatchAnyCI skipLits raw
  if ¬ required ∧ (raw = [] ∨ isSkip) then
    ⟨true, .vStr [], none, 1, none, [], []⟩
  else if required ∧ raw = [] then
    ⟨false, .vNone, none, 0,
      some (str "I need a response for this item before I can continue."), options, []⟩
  else if questionType = str "choice" then
    let m := matchOption sim raw options
    if optTruthy m.1 then
      let matched := m.1.getD []
      ⟨true, .vStr matched, some matched, pyRound2 m.2, none, [], []⟩
    else
      ⟨false, .vNone, none, 0,
        some (str "Please choose one of the available options."), options, []⟩
  else if questionType = str "date" then
    match parseDateInput absFB today raw with
    | some parsed =>
      if parsed = [] then
        ⟨false, .vNone, none, 0,
          some (str "Please provide a valid date. Use YYYY-MM-DD or natural format like March 5, 2026."),
          [], []⟩
      else ⟨true, .vStr parsed, none, c095, none, [], []⟩
    | none =>
      ⟨false, .vNone, none, 0,
        some (str "Please provide a valid date. Use YYYY-MM-DD or natural format like March 5, 2026."),
        [], []⟩
  else
    let lowId := lowerStr questionId
    if lowId = str "client_code" ∨ lowId = str "client_id" then
      match extractClientCodeCandidates raw with
      | c :: cs =>
        ⟨true, .vStr c, none, c095, none, [],
          [(str "client_code_candidates", .vList (c :: cs))]⟩
      | [] =>
        ⟨false, .vNone, none, 0,
          some (str "I could not detect a valid client code in that response."), [], []⟩
    else if lowId = str "references" ∨ lowId = str "uploaded_files" then
      let values := parseLinksAndFiles raw
      ⟨true, .vList values, none, c090, none, [],
        [(str "values_found", .vNat values.length)]⟩
    else
      let cleaned := cleanFieldIntro questionId questionLabel raw
      ⟨true, .vStr cleaned, none, if cleaned ≠ raw then c090 else c080, none, [], []⟩

/-! ### Dialogue engine data model (`chat_agent_service.py`, `schemas.py`,
`flow_definitions.py`) -/

/-- A JSON-ish value as returned by the Semantic Extractor collaborator.
Numeric/boolean JSON values, which the engine would stringify, are
represented by `lStr` of their textual form. -/
inductive LVal
  | lNone
  | lStr (s : Str)
  | lList (l : List Str)
deriving DecidableEq

/-- The normalized result of `OpenAIService.extract_structured_answer`
(the engine only consumes `ok`, `value`, `confidence`,
`needs_clarification` and `clarification_question`). -/
structure ExtResult where
  ok : Bool
  value : LVal
  confidence : ℚ
  needsClarification : Bool
  clarificationQuestion : Option Str
deriving DecidableEq

/-- `IntakeQuestion` of `schemas.py` (`required` defaults to true in the
source; all fields are explicit here). -/
structure Question where
  id : Str
  label : Str
  questionType : Str
  required : Bool
  options : List Str
deriving DecidableEq

/-- The slice of a client profile dictionary the embedded engine paths read. -/
structure Profile where
  clientName : Str
  clientCode : Str
  defaultApprover : Option Str
  serviceOptions : List Str
deriving DecidableEq

/-- `ChatSession` of `chat_agent_service.py`. -/
structure Session where
  sessionId : Str
  phase : Str
  clientProfile : Option Profile
  serviceType : Option Str
  questions : List Question
  questionIndex : Nat
  answers : List (Str × PyVal)
  summary : Option Str
  pendingFieldId : Option Str
  pendingValue : PyVal
  pendingConfidence : ℚ
  pendingQuestion : Option Str
  turnCount : Nat
  lastUserMessage : Str
  clientCodeAttempts : Nat
  serviceAttempts : Nat
  userName : Option Str
deriving DecidableEq

/-- A fresh `ChatSession(session_id=sid)` with the dataclass defaults. -/
def newSession (sid : Str) : Session :=
  ⟨sid, str "await_client_code", none, none, [], 0, [], none, none, .vNone, 0,
   none, 0, [], 0, 0, none⟩

/-- Ordered-dict lookup (first and only binding of the key). -/
def dictGet (d : List (Str × PyVal)) (k : Str) : Option PyVal :=
  (d.find? (fun kv => kv.1 = k)).map (fun kv => kv.2)

/-- Ordered-dict update: overwrite in place, else append (Python dict). -/
def alistInsert {α : Type} : List (Str × α) → Str → α → List (Str × α)
  | [], k, v => [(k, v)]
  | (k0, v0) :: rest, k, v =>
    if k0 = k then (k0, v) :: rest else (k0, v0) :: alistInsert rest k v

/-- `MondaySubmissionResult` (Ticketing Sink result). -/
structure MondayResult where
  itemId : Str
  boardId : Option Str
  mockMode : Bool
deriving DecidableEq

/-- The record returned by the Record Sink (`create_request_log`); only the
`id` field is consumed by the engine, so only it is modelled. -/
structure LogRecord where
  id : Str
deriving DecidableEq

/-- `ChatMessageResponse` of `schemas.py`. -/
structure ChatResp where
  sessionId : Str
  assistantMessage : Str
  phase : Str
  suggestions : List Str
  profile : Option Profile
  serviceType : Option Str
  readyToSubmit : Bool
  summary : Option Str
  requestId : Option Str
  mondayItemId : Option Str
deriving DecidableEq

/-- Collaborator call observed during a turn. -/
inductive Eff
  | extractorCall
  | ticketCall
  | logCall
deriving DecidableEq

/-- One turn's worth of collaborator behaviour.  Each collaborator is called
at most once per turn, so its behaviour is a plain value (for `refine` and
`summarize`, a function of the text the engine hands it).  `ext` is the
Semantic Extractor; `monday` the Ticketing Sink; `createLog` the Record
Sink; `storeServiceOptions` the stored global service-option list. -/
structure Oracles where
  ext : Option ExtResult
  genQuestion : Option Str
  genReply : Option Str
  refine : Str → Str → Str
  summarize : Str → Str
  monday : Except Str MondayResult
  createLog : Except Str LogRecord
  storeServiceOptions : List Str

/-! ### Question catalog (`flow_definitions.py`) -/

def coreQuestions : List Question :=
  [⟨str "project_title", str "Project Title", str "text", true, []⟩,
   ⟨str "goal", str "Goal (desired outcome)", str "text", true, []⟩,
   ⟨str "target_audience", str "Target Audience", str "text", true, []⟩,
   ⟨str "primary_cta", str "Primary CTA", str "text", true, []⟩,
   ⟨str "time_sensitivity", str "Time Sensitivity", str "choice", true,
     [str "Standard", str "Soon", str "Urgent"]⟩,
   ⟨str "due_date", str "Due Date", str "date", true, []⟩,
   ⟨str "approver", str "Approver", str "text", true, []⟩,
   ⟨str "required_elements", str "Required elements (logos, disclaimers, QR codes, etc.)",
     str "text", true, []⟩,
   ⟨str "references", str "References / links (comma-separated)", str "text", false, []⟩]

def graphicBranch : List Question :=
  [⟨str "dimensions", str "Dimensions / format", str "text", true, []⟩,
   ⟨str "copy_provided", str "Copy provided?", str "choice", true, [str "Yes", str "No"]⟩,
   ⟨str "bilingual", str "Bilingual?", str "choice", true, [str "Yes", str "No"]⟩,
   ⟨str "image_source", str "Stock or provided images?", str "text", true, []⟩,
   ⟨str "accessibility", str "Accessibility requirements", str "text", false, []⟩]

def newsletterBranch : List Question :=
  [⟨str "newsletter_tone", str "Internal or external tone", str "text", true, []⟩,
   ⟨str "sections", str "Sections required", str "text", true, []⟩,
   ⟨str "content_status", str "Content provided or drafted?", str "text", true, []⟩,
   ⟨str "metrics", str "Metrics to include", str "text", false, []⟩,
   ⟨str "distribution", str "Distribution channel", str "text", true, []⟩]

def pressBranch : List Question :=
  [⟨str "announcement_summary", str "Announcement summary", str "text", true, []⟩,
   ⟨str "quotes_needed", str "Quotes needed?", str "choice", true, [str "Yes", str "No"]⟩,
   ⟨str "boilerplate", str "Boilerplate inclusion", str "choice", true, [str "Yes", str "No"]⟩,
   ⟨str "media_targets", str "Media targets", str "text", true, []⟩,
   ⟨str "assets_needed", str "Assets needed", str "text", false, []⟩]

def campaignBranch : List Question :=
  [⟨str "channels", str "Channels required", str "text", true, []⟩,
   ⟨str "asset_list", str "Asset list", str "text", true, []⟩,
   ⟨str "launch_timeline", str "Launch timeline", str "text", true, []⟩,
   ⟨str "paid_promo", str "Paid promotion required?", str "choice", true, [str "Yes", str "No"]⟩]

def otherBranch : List Question :=
  [⟨str "open_description", str "Open description", str "text", true, []⟩,
   ⟨str "desired_output", str "Desired output format", str "text", true, []⟩,
   ⟨str "clarifications", str "Clarifying follow-ups", str "text", false, []⟩]

/-- `BRANCH_QUESTIONS`, in dict order. -/
def branchQuestions : List (Str × List Question) :=
  [(str "Custom graphic", graphicBranch),
   (str "Moderate layout graphic", graphicBranch),
   (str "Internal newsletter (up to 3 pages)", newsletterBranch),
   (str "External newsletter (up to 3 pages)", newsletterBranch),
   (str "Press release", pressBranch),
   (str "Press release package", pressBranch),
   (str "Campaign set (up to 6 assets)", campaignBranch),
   (str "Other", otherBranch)]

def branchLookup (k : Str) : Option (List Question) :=
  (branchQuestions.find? (fun kv => kv.1 = k)).map (fun kv => kv.2)

/-- The trailing optional attachment question appended to every queue. -/
def uploadQuestion : Question :=
  ⟨str "uploaded_files", str "Any files to attach? Share filenames or links.",
   str "text", false, []⟩

/-- `_build_question_queue`: core + branch (falling back to "Other" when the
service type is unknown or its list is empty, via Python `or`) + upload. -/
def buildQuestionQueue (serviceType : Str) : List Question :=
  let otherQs := (branchLookup (str "Other")).getD []
  let branch :=
    match branchLookup serviceType with
    | some qs => if qs = [] then otherQs else qs
    | none => otherQs
  coreQuestions ++ branch ++ [uploadQuestion]

/-- `CORE_FIELDS` of `chat_agent_service.py`. -/
def coreFields : List Str :=
  [str "project_title", str "goal", str "target_audience", str "primary_cta",
   str "time_sensitivity", str "due_date", str "approver", str "required_elements",
   str "references", str "uploaded_files", str "notes"]

/-! ### Submission payload assembly and validation -/

/-- Python truthiness of an answer value. -/
def pyFalsy : PyVal → Bool
  | .vNone => true
  | .vStr s => s = []
  | .vList l => l = []
  | .vNat n => n = 0

/-- Is the value in `(None, "", [])` (the branch-answer exclusion tuple)? -/
def inNoneEmpty : PyVal → Bool
  | .vNone => true
  | .vStr s => s = []
  | .vList l => l = []
  | .vNat _ => false

/-- `answers.get(k) or ""`. -/
def getOrEmpty (d : List (Str × PyVal)) (k : Str) : PyVal :=
  match dictGet d k with
  | some v => if pyFalsy v then .vStr [] else v
  | none => .vStr []

/-- `answers.get(k) or None`. -/
def getOrNone (d : List (Str × PyVal)) (k : Str) : PyVal :=
  match dictGet d k with
  | some v => if pyFalsy v then .vNone else v
  | none => .vNone

def natToStrGo (fuel n : Nat) (acc : Str) : Str :=
  match fuel with
  | 0 => acc
  | f + 1 =>
    if n < 10 then Char.ofNat ('0'.toNat + n) :: acc
    else natToStrGo f (n / 10) (Char.ofNat ('0'.toNat + n % 10) :: acc)

def natToStr (n : Nat) : Str := natToStrGo (n + 1) n []

/-- `_coerce_list` of `chat_agent_service.py` (argument is `answers.get(k)`). -/
def coerceList : Option PyVal → List Str
  | none => []
  | some .vNone => []
  | some (.vList l) => (l.map pyStrip).filter (fun x => x ≠ [])
  | some (.vStr s) =>
    ((splitOnPred (fun c => c = ',') s).map pyStrip).filter (fun x => x ≠ [])
  | some (.vNat n) => [natToStr n]

/-- The validated `IntakeSubmission` model of `schemas.py` (the due date is
kept as a validated y/m/d triple). -/
structure Payload where
  serviceType : Str
  projectTitle : Str
  goal : Str
  targetAudience : Str
  primaryCta : Str
  timeSensitivity : Str
  dueY : Nat
  dueM : Nat
  dueD : Nat
  approver : Option Str
  requiredElements : Option Str
  references : List Str
  uploadedFiles : List Str
  branchAnswers : List (Str × PyVal)
  notes : Option Str
deriving DecidableEq

/-- Pydantic `str` field validation (no coercion from other JSON types). -/
def asStrVal : PyVal → Option Str
  | .vStr s => some s
  | _ => none

/-- Pydantic `str | None` field validation. -/
def asOptStrVal : PyVal → Option (Option Str)
  | .vNone => some none
  | .vStr s => some (some s)
  | _ => none

def isLeapYear (y : Nat) : Bool := (y % 4 = 0 ∧ y % 100 ≠ 0) ∨ y % 400 = 0

def daysInMonth (y m : Nat) : Nat :=
  if m = 2 then (if isLeapYear y then 29 else 28)
  else if m = 4 ∨ m = 6 ∨ m = 9 ∨ m = 11 then 30
  else 31

def digitVal (c : Char) : Nat := c.toNat - '0'.toNat

/-- Pydantic `date` parsing of a string: strict `YYYY-MM-DD` with calendar
validation (this is the point where an impossible date like `2026-99-99`
is finally rejected). -/
def pydValidDate (s : Str) : Option (Nat × Nat × Nat) :=
  match s with
  | [a, b, c, d, h1, e, f, h2, g, i] =>
    if isDigitChar a ∧ isDigitChar b ∧ isDigitChar c ∧ isDigitChar d ∧ h1 = '-' ∧
        isDigitChar e ∧ isDigitChar f ∧ h2 = '-' ∧ isDigitChar g ∧ isDigitChar i then
      let y := digitVal a * 1000 + digitVal b * 100 + digitVal c * 10 + digitVal d
      let m := digitVal e * 10 + digitVal f
      let dd := digitVal g * 10 + digitVal i
      if 1 ≤ y ∧ 1 ≤ m ∧ m ≤ 12 ∧ 1 ≤ dd ∧ dd ≤ daysInMonth y m then some (y, m, dd)
      else none
    else none
  | _ => none

/-- `_build_submission_payload`: raises (`Except.error`) when `service_type`
is unset/empty or `IntakeSubmission.model_validate` fails.  Pydantic
validates every field and fails when any one fails, so the validation is a
conjunction of the per-field checks. -/
def buildSubmissionPayload (s : Session) : Except Str Payload :=
  let stOk : Option Str :=
    match s.serviceType with
    | some st => if st = [] then none else some st
    | none => none
  match stOk with
  | none => .error (str "Service type is missing")
  | some st =>
    let answers := s.answers
    let references := coerceList (dictGet answers (str "references"))
    let uploadedFiles := coerceList (dictGet answers (str "uploaded_files"))
    let branchAnswers := answers.filter (fun kv =>
      ¬ coreFields.any (fun f => f = kv.1) ∧ ¬ inNoneEmpty kv.2)
    let ptO := asStrVal (getOrEmpty answers (str "project_title"))
    let goalO := asStrVal (getOrEmpty answers (str "goal"))
    let taO := asStrVal (getOrEmpty answers (str "target_audience"))
    let ctaO := asStrVal (getOrEmpty answers (str "primary_cta"))
    let tsO := (asStrVal (match dictGet answers (str "time_sensitivity") with
      | some v => if pyFalsy v then .vStr (str "Standard") else v
      | none => .vStr (str "Standard"))).bind (fun tsRaw =>
        if tsRaw = str "Standard" ∨ tsRaw = str "Soon" ∨ tsRaw = str "Urgent"
        then some tsRaw else none)
    let dueO := (asStrVal (getOrEmpty answers (str "due_date"))).bind pydValidDate
    let apO := asOptStrVal (getOrNone answers (str "approver"))
    let relemO := asOptStrVal (getOrNone answers (str "required_elements"))
    let notesO := asOptStrVal (getOrNone answers (str "notes"))
    if h : ptO.isSome = true ∧ goalO.isSome = true ∧ taO.isSome = true ∧
        ctaO.isSome = true ∧ tsO.isSome = true ∧ dueO.isSome = true ∧
        apO.isSome = true ∧ relemO.isSome = true ∧ notesO.isSome = true then
      .ok ⟨st, ptO.get h.1, goalO.get h.2.1, taO.get h.2.2.1, ctaO.get h.2.2.2.1,
        tsO.get h.2.2.2.2.1, (dueO.get h.2.2.2.2.2.1).1, (dueO.get h.2.2.2.2.2.1).2.1,
        (dueO.get h.2.2.2.2.2.1).2.2, apO.get h.2.2.2.2.2.2.1,
        relemO.get h.2.2.2.2.2.2.2.1, references, uploadedFiles, branchAnswers,
        notesO.get h.2.2.2.2.2.2.2.2⟩
    else .error (str "validation error for IntakeSubmission")

/-! ### Summary generation (`intake_service.py`) -/

def joinSep (sep : Str) : List Str → Str
  | [] => []
  | [x] => x
  | x :: y :: rest => x ++ sep ++ joinSep sep (y :: rest)

def quoteChar : Char := Char.ofNat 39

/-- Python `str(value)` of an answer value (list rendering uses `repr` of the
items, which for the plain strings occurring here is single-quoted). -/
def pyStrOfVal : PyVal → Str
  | .vNone => str "None"
  | .vStr s => s
  | .vList l =>
    str "[" ++ joinSep (str ", ") (l.map (fun x => quoteChar :: x ++ [quoteChar])) ++ str "]"
  | .vNat n => natToStr n

/-- `client_profile.get('default_approver', 'Not specified')` (absence of the
key is modelled by `none`). -/
def approverDefault (p : Profile) : Str :=
  match p.defaultApprover with
  | some a => a
  | none => str "Not specified"

/-- `build_fallback_summary` of `intake_service.py`. -/
def buildFallbackSummary (p : Profile) (pl : Payload) : Str :=
  let links := if pl.references = [] then [str "None provided"] else pl.references
  let files := if pl.uploadedFiles = [] then [str "None"] else pl.uploadedFiles
  let approverLine :=
    match pl.approver with
    | some a => if a = [] then approverDefault p else a
    | none => approverDefault p
  let baseLines : List Str :=
    [str "Client: " ++ p.clientName ++ str " (" ++ p.clientCode ++ str ")",
     str "Project Title: " ++ pl.projectTitle,
     str "Deliverable: " ++ pl.serviceType,
     str "Goal: " ++ pl.goal,
     str "Audience: " ++ pl.targetAudience,
     str "CTA: " ++ pl.primaryCta,
     str "Due Date: " ++ isoOfYmd pl.dueY pl.dueM pl.dueD,
     str "Urgency: " ++ pl.timeSensitivity,
     str "Approver: " ++ approverLine,
     str "Required Elements: " ++
       (match pl.requiredElements with
        | some r => if r = [] then str "None specified" else r
        | none => str "None specified"),
     str "Links: " ++ joinSep (str ", ") links,
     str "Files: " ++ joinSep (str ", ") files]
  let branchLines : List Str :=
    if pl.branchAnswers = [] then []
    else str "Branch Details:" ::
      pl.branchAnswers.map (fun kv => str "- " ++ kv.1 ++ str ": " ++ pyStrOfVal kv.2)
  let noteLines : List Str :=
    match pl.notes with
    | some n => if n = [] then [] else [str "Notes: " ++ n]
    | none => []
  joinSep (str "\n") (baseLines ++ branchLines ++ noteLines)

/-- `generate_summary`: builds the deterministic fallback and passes it to the
summarizer collaborator, which returns either its own text or the fallback. -/
def generateSummary (O : Oracles) (p : Profile) (pl : Payload) : Str :=
  O.summarize (buildFallbackSummary p pl)

/-! ### Hybrid field resolution -/

/-- `f'Did you mean "{value}"?'` -/
def didYouMean (v : Str) : Str := str "Did you mean \"" ++ v ++ str "\"?"

/-- `_default_clarification_prompt`. -/
def defaultClarificationPrompt (q : Question) (candidate : PyVal) : Str :=
  if q.questionType = str "date" then
    str "To confirm, should I use " ++ pyStrOfVal candidate ++ str " as the due date?"
  else
    str "To confirm, should I use \"" ++ pyStrOfVal candidate ++ str "\" for \"" ++
      q.label ++ str "\"?"

/-- `_hybrid_match_option`.  The second component records whether the
Semantic Extractor was invoked on this path.  The extractor's behaviour for
this turn is the value `ext` (its real arguments — field id/label/options,
message and context — are fixed within one call, so a per-turn value is the
general form of its behaviour). -/
def hybridMatchOption (sim : Str → Str → ℚ) (ext : Option ExtResult)
    (message : Str) (options : List Str) : (Option Str × ℚ × Option Str) × Bool :=
  let m := matchOption sim message options
  if optTruthy m.1 ∧ c086 ≤ m.2 then ((m.1, m.2, none), false)
  else
    let ruleFallback : Option Str × ℚ × Option Str :=
      if optTruthy m.1 ∧ c055 ≤ m.2 then (m.1, m.2, some (didYouMean (m.1.getD [])))
      else (none, 0, none)
    match ext with
    | none => (ruleFallback, true)
    | some r =>
      if ¬ r.ok then (ruleFallback, true)
      else
        let conf := r.confidence
        let ncResult : Option Str × ℚ × Option Str :=
          if r.needsClarification then
            match r.clarificationQuestion with
            | some c => if c = [] then ruleFallback else (none, conf, some c)
            | none => ruleFallback
          else ruleFallback
        match r.value with
        | .lStr v =>
          if options.any (fun o => o = v) then
            if c078 ≤ conf ∧ ¬ r.needsClarification then ((some v, conf, none), true)
            else if c055 ≤ conf then
              let clar := match r.clarificationQuestion with
                | some c => if c = [] then didYouMean v else c
                | none => didYouMean v
              ((some v, conf, some clar), true)
            else (ncResult, true)
          else (ncResult, true)
        | _ => (ncResult, true)

/-- `_normalize_candidate_value`: `none` models `{"ok": False}`. -/
def normalizeCandidateValue (sim : Str → Str → ℚ) (absFB : Str → Option Str)
    (today : Nat) (q : Question) (v : LVal) : Option PyVal :=
  if q.id = str "references" ∨ q.id = str "uploaded_files" then
    match v with
    | .lList l => some (.vList ((l.map pyStrip).filter (fun x => x ≠ [])))
    | .lNone => if q.required then none else some (.vList [])
    | .lStr s =>
      some (.vList (((splitOnPred (fun c => c = ',') s).map pyStrip).filter (fun x => x ≠ [])))
  else if q.questionType = str "choice" then
    match v with
    | .lStr s =>
      let cand := normalizeAnswer sim absFB today s q.id q.questionType q.required
        q.options (some q.label)
      if cand.ok then some cand.normalizedValue else none
    | _ => none
  else if q.questionType = str "date" then
    match v with
    | .lStr s =>
      let cand := normalizeAnswer sim absFB today s q.id q.questionType q.required
        [] (some q.label)
      if cand.ok then some cand.normalizedValue else none
    | _ => none
  else
    match v with
    | .lNone => if q.required then none else some (.vStr [])
    | .lStr s => some (.vStr (pyStrip s))
    | .lList _ => none

/-- The status dictionary returned by `_hybrid_extract_question_answer`. -/
inductive ExtractOutcome
  | accept (value : PyVal) (confidence : ℚ) (source : Str)
  | clarify (value : PyVal) (confidence : ℚ) (question : Str) (source : Str)
  | reject (message : Str) (options : List Str)
deriving DecidableEq

/-- `_hybrid_extract_question_answer`.  The Boolean records whether the
Semantic Extractor was invoked (the session context passed to it only feeds
the extractor itself, which is already abstracted by `ext`). -/
def hybridExtract (sim : Str → Str → ℚ) (absFB : Str → Option Str) (today : Nat)
    (ext : Option ExtResult) (q : Question) (msg : Str) : ExtractOutcome × Bool :=
  let rule := normalizeAnswer sim absFB today msg q.id q.questionType q.required
    q.options (some q.label)
  if rule.ok ∧ q.questionType ≠ str "choice" ∧ q.questionType ≠ str "date" then
    (.accept rule.normalizedValue rule.confidence (str "rule"), false)
  else if rule.ok ∧ c086 ≤ rule.confidence then
    (.accept rule.normalizedValue rule.confidence (str "rule"), false)
  else
    let ruleTail : ExtractOutcome :=
      if rule.ok ∧ c055 ≤ rule.confidence then
        .clarify rule.normalizedValue rule.confidence
          (defaultClarificationPrompt q rule.normalizedValue) (str "rule")
      else if q.questionType = str "date" then
        .reject (str "I can work with natural dates. For example: tomorrow, next Friday, March 5, or 2026-03-05. What due date should I use?") []
      else
        .reject
          (match rule.message with
           | some m => if m = [] then str "Could you rephrase that answer?" else m
           | none => str "Could you rephrase that answer?")
          rule.options
    match ext with
    | none => (ruleTail, true)
    | some r =>
      if ¬ r.ok then (ruleTail, true)
      else
        match normalizeCandidateValue sim absFB today q r.value with
        | none => (ruleTail, true)
        | some cand =>
          let conf := r.confidence
          if c078 ≤ conf ∧ ¬ r.needsClarification then
            (.accept cand conf (str "llm"), true)
          else if c055 ≤ conf ∨ r.needsClarification then
            let clar := match r.clarificationQuestion with
              | some c => if c = [] then defaultClarificationPrompt q cand else c
              | none => defaultClarificationPrompt q cand
            (.clarify cand conf clar (str "llm"), true)
          else (ruleTail, true)

/-! ### Engine helpers and handlers -/

/-- `_set_pending_clarification`. -/
def setPendingClarification (s : Session) (fieldId : Str) (value : PyVal)
    (confidence : ℚ) (questionText : Option Str) : Session :=
  { s with pendingFieldId := some fieldId, pendingValue := value,
           pendingConfidence := confidence, pendingQuestion := questionText }

/-- `_clear_pending_clarification`. -/
def clearPendingClarification (s : Session) : Session :=
  { s with pendingFieldId := none, pendingValue := .vNone,
           pendingConfidence := 0, pendingQuestion := none }

/-- `_current_question` (the index is a `Nat`, so the negative check of the
source is vacuous). -/
def currentQuestion (s : Session) : Option Question :=
  s.questions.get? s.questionIndex

/-- `_service_options`. -/
def serviceOptionsOf (O : Oracles) (p : Option Profile) : List Str :=
  match p with
  | none => O.storeServiceOptions
  | some prof =>
    let opts := if prof.serviceOptions = [] then O.storeServiceOptions
      else prof.serviceOptions
    opts.filter (fun o => pyStrip o ≠ [])

/-- `_question_suggestions`. -/
def questionSuggestions (q : Question) : List Str :=
  if ¬ q.required ∧ q.questionType ≠ str "choice" then q.options ++ [str "skip"]
  else q.options

/-- `_fallback_question_prompt`. -/
def fallbackQuestionPrompt (q : Question) (serviceType : Str) : Str :=
  let label := pyStrip q.label
  if q.id = str "project_title" then
    str "What should we call this " ++ lowerStr serviceType ++ str " request?"
  else if q.id = str "goal" then str "What outcome are you aiming for?"
  else if q.id = str "target_audience" then str "Who is the target audience?"
  else if q.id = str "primary_cta" then str "What is the primary call to action?"
  else if q.id = str "due_date" then str "When do you want this delivered?"
  else if q.id = str "approver" then str "Who should approve this request?"
  else if q.id = str "required_elements" then
    str "Are there required elements to include (logos, disclaimers, QR code, etc.)?"
  else if q.id = str "references" then
    str "Any references or links I should use? This is optional."
  else if q.id = str "uploaded_files" then
    str "Do you want to attach any files or links? This is optional."
  else if q.questionType = str "choice" ∧ q.options ≠ [] then
    label ++ str " Please choose one: " ++ joinSep (str ", ") q.options ++ str "."
  else if q.required then str "Could you share: " ++ label ++ str "?"
  else str "Could you share: " ++ label ++ str "? This is optional."

/-- `_question_prompt` (the two generator collaborators, then the fallback). -/
def questionPrompt (O : Oracles) (q : Question) (serviceType : Str) : Str :=
  if optTruthy O.genQuestion then O.genQuestion.getD []
  else if optTruthy O.genReply then O.genReply.getD []
  else fallbackQuestionPrompt q serviceType

/-- `_assistant_text` = `refine_chat_reply` (the context dictionary only
feeds the collaborator, which `refine` abstracts). -/
def assistantText (O : Oracles) (fallback phase : Str) : Str := O.refine fallback phase

/-- `_response`: builds a `ChatMessageResponse` from the (already mutated)
session.  Arguments follow the keyword arguments of the source. -/
def mkResp (s : Session) (assistantMessage : Str) (suggestions : List Str)
    (profile : Option Profile) (serviceType : Option Str) (readyToSubmit : Bool)
    (summary : Option Str) (requestId : Option Str) (mondayItemId : Option Str) :
    ChatResp :=
  let profilePayload := match profile with
    | some p => some p
    | none => s.clientProfile
  let st := match serviceType with
    | some v => if v = [] then s.serviceType else some v
    | none => s.serviceType
  ⟨s.sessionId, assistantMessage, s.phase, suggestions, profilePayload, st,
   readyToSubmit, summary, requestId, mondayItemId⟩

/-- `_reset_intake_only`. -/
def resetIntakeOnly (s : Session) : Session :=
  let s1 := { s with
    phase := match s.clientProfile with
      | some _ => str "await_service"
      | none => str "await_client_code",
    serviceType := none, questions := [], questionIndex := 0, summary := none,
    clientCodeAttempts := 0, serviceAttempts := 0 }
  let s2 := clearPendingClarification s1
  let defaultApprover := match s.clientProfile with
    | some p => match p.defaultApprover with
      | some a => a
      | none => []
    | none => []
  { s2 with answers := [(str "approver", PyVal.vStr defaultApprover)] }

/-- `_advance_after_answer`. -/
def advanceAfterAnswer (O : Oracles) (s : Session) (p : Profile) :
    Session × ChatResp :=
  match currentQuestion s with
  | some nextQ =>
    let prompt := questionPrompt O nextQ (s.serviceType.getD [])
    (s, mkResp s prompt (questionSuggestions nextQ) (some p) s.serviceType
      false none none none)
  | none =>
    match buildSubmissionPayload s with
    | .error _ =>
      let s' := { s with phase := str "await_question",
                         questionIndex := s.questions.length - 1 }
      (s', mkResp s'
        (assistantText O (str "I need a few details corrected before I can generate your summary. Please check your due date and required fields.") s'.phase)
        [] (some p) s'.serviceType false none none none)
    | .ok payload =>
      let summary := generateSummary O p payload
      let s' := { s with summary := some summary, phase := str "await_confirmation" }
      let messageText :=
        str "Great, I have everything I need.\n\nMission Summary\n\n" ++ summary ++
          str "\n\nWould you like me to submit this request now?"
      (s', mkResp s' (assistantText O messageText s'.phase)
        [str "Submit", str "Restart"] (some p) s'.serviceType true (some summary)
        none none)

/-- `_resolve_pending_clarification`: `none` as second component models the
fall-through (`return None`) into fresh extraction. -/
def resolvePendingClarification (O : Oracles) (s : Session) (q : Question)
    (msg : Str) : Session × Option ChatResp :=
  match s.clientProfile with
  | none => (clearPendingClarification s, none)
  | some p =>
    let cleaned := pyStrip msg
    if confirmMatch cleaned then
      let value := s.pendingValue
      let s1 := clearPendingClarification s
      let s2 := { s1 with answers := alistInsert s1.answers q.id value,
                          questionIndex := s1.questionIndex + 1 }
      let out := advanceAfterAnswer O s2 p
      (out.1, some out.2)
    else if rejectMatch cleaned then
      let s1 := clearPendingClarification s
      let prompt := questionPrompt O q (s1.serviceType.getD [])
      (s1, some (mkResp s1 prompt (questionSuggestions q) (some p) s1.serviceType
        false none none none))
    else (clearPendingClarification s, none)

/-- `_handle_question_response`. -/
def handleQuestionResponse (sim : Str → Str → ℚ) (absFB : Str → Option Str)
    (today : Nat) (O : Oracles) (s : Session) (msg : Str) :
    Session × ChatResp × List Eff :=
  match currentQuestion s, s.clientProfile with
  | some q, some p =>
    let step1 : Session × Option ChatResp :=
      if s.pendingFieldId = some q.id then resolvePendingClarification O s q msg
      else (s, none)
    match step1 with
    | (s1, some resp) => (s1, resp, [])
    | (s1, none) =>
      let ec := hybridExtract sim absFB today O.ext q msg
      let effs : List Eff := if ec.2 then [Eff.extractorCall] else []
      match ec.1 with
      | .clarify value conf clar _src =>
        let s2 := setPendingClarification s1 q.id value conf (some clar)
        let fb := if clar = [] then str "Did you mean: " ++ pyStrOfVal value ++ str "?"
          else clar
        (s2, mkResp s2 (assistantText O fb s2.phase) [str "Yes", str "No"] (some p)
          s2.serviceType false none none none, effs)
      | .reject message options =>
        let fb := if message = [] then str "Could you rephrase that answer?" else message
        let sugg := if options = [] then questionSuggestions q else options
        (s1, mkResp s1 (assistantText O fb s1.phase) sugg (some p)
          s1.serviceType false none none none, effs)
      | .accept value _conf _src =>
        let s2 := clearPendingClarification s1
        let s3 := { s2 with answers := alistInsert s2.answers q.id value,
                            questionIndex := s2.questionIndex + 1 }
        let out := advanceAfterAnswer O s3 p
        (out.1, out.2, effs)
  | _, _ =>
    let s' := { s with phase := str "await_service" }
    let sugg := match s'.clientProfile with
      | some _ => serviceOptionsOf O s'.clientProfile
      | none => []
    (s', mkResp s'
      (assistantText O (str "I lost the intake flow state. Let us pick the service again.") s'.phase)
      sugg s'.clientProfile none false none none none, [])

/-- The retry response of `_handle_confirmation`'s `except` branch. -/
def confirmationErrResp (O : Oracles) (s : Session) (p : Profile) (e : Str) :
    ChatResp :=
  mkResp s (assistantText O (str "I could not submit the request yet. " ++ e) s.phase)
    [str "Submit", str "Restart"] (some p) s.serviceType true s.summary none none

/-- `_handle_confirmation`.  The trace records Ticketing Sink and Record Sink
calls in order; an error from either lands in the `except` branch with the
session untouched. -/
def handleConfirmation (O : Oracles) (s : Session) (msg : Str) :
    Session × ChatResp × List Eff :=
  match s.clientProfile with
  | none =>
    let s' := { s with phase := str "await_client_code" }
    (s', mkResp s'
      (assistantText O (str "I need to re-verify your client code first.") s'.phase)
      [] none none false none none none, [])
  | some p =>
    let lowered := lowerStr (pyStrip msg)
    if searchAny restartWords lowered then
      let s' := resetIntakeOnly s
      (s', mkResp s'
        (assistantText O (str "No problem. Let us start a new request. What service do you need?") s'.phase)
        (serviceOptionsOf O (some p)) (some p) none false none none none, [])
    else if ¬ searchAny submitWords lowered then
      (s, mkResp s
        (assistantText O (str "Type Submit to send this request, or Restart to begin again.") s.phase)
        [str "Submit", str "Restart"] (some p) s.serviceType true s.summary none none, [])
    else
      match buildSubmissionPayload s with
      | .error e => (s, confirmationErrResp O s p e, [])
      | .ok payload =>
        let summary := match s.summary with
          | some t => if t = [] then generateSummary O p payload else t
          | none => generateSummary O p payload
        match O.monday with
        | .error e => (s, confirmationErrResp O s p e, [Eff.ticketCall])
        | .ok monday =>
          match O.createLog with
          | .error e => (s, confirmationErrResp O s p e, [Eff.ticketCall, Eff.logCall])
          | .ok log =>
            let s' := { s with phase := str "done", summary := some summary }
            let fb := str "Submitted successfully.\nRequest ID: " ++ log.id ++
              str "\nMonday Item: " ++ monday.itemId ++ str "\nMock Mode: " ++
              (if monday.mockMode then str "Yes" else str "No")
            (s', mkResp s' (assistantText O fb s'.phase) [str "Start New Request"]
              (some p) s'.serviceType false (some summary) (some log.id)
              (some monday.itemId), [Eff.ticketCall, Eff.logCall])

/-- `_handle_done`. -/
def handleDone (O : Oracles) (s : Session) (msg : Str) : Session × ChatResp :=
  if searchAny restartWords msg || strHas (lowerStr msg) (str "start new request") then
    let s' := resetIntakeOnly s
    let sugg := match s'.clientProfile with
      | some _ => serviceOptionsOf O s'.clientProfile
      | none => []
    (s', mkResp s'
      (assistantText O (str "Ready for a new request. What service should we start with?") s'.phase)
      sugg s'.clientProfile none false none none none)
  else
    (s, mkResp s
      (assistantText O (str "Type Start New Request when you want to create another intake.") s.phase)
      [str "Start New Request"] s.clientProfile none false none none none)

/-- `_get_or_create_session`.  `freshId` models the `uuid4()` draw. -/
def getOrCreateSession (sessions : List (Str × Session)) (sessionId : Option Str)
    (reset : Bool) (freshId : Str) : List (Str × Session) × Session :=
  let sidTruthy := optTruthy sessionId
  let sid := sessionId.getD []
  let found : Option Session :=
    if sidTruthy ∧ ¬ reset then (sessions.find? (fun kv => kv.1 = sid)).map (fun kv => kv.2)
    else none
  match found with
  | some sess => (sessions, sess)
  | none =>
    let newId := if sidTruthy ∧ reset then sid else freshId
    let sess := newSession newId
    (alistInsert sessions newId sess, sess)

/-! ### Concrete fixtures used by witnesses and counterexamples -/

/-- A similarity oracle that never scores anything. -/
def sim0 : Str → Str → ℚ := fun _ _ => 0

/-- An absolute-format fallback that parses nothing. -/
def absFB0 : Str → Option Str := fun _ => none

/-- Collaborators: extractor unavailable, generators off, refine/summarize
pass the fallback through, ticket and log sinks succeed. -/
def oraclesOk : Oracles :=
  ⟨none, none, none, fun fb _ => fb, fun fb => fb,
   .ok ⟨str "ITEM1", none, true⟩, .ok ⟨str "LOG1"⟩, []⟩

/-- Same collaborators, but the Ticketing Sink raises. -/
def oraclesTicketFail : Oracles :=
  ⟨none, none, none, fun fb _ => fb, fun fb => fb,
   .error (str "boom"), .ok ⟨str "LOG1"⟩, []⟩

/-- A resolved client profile. -/
def profile0 : Profile :=
  ⟨str "Ready One", str "READYONE01", some (str "Jordan"), [str "Other"]⟩

/-- A complete answers map for the "Other" service. -/
def answersFull : List (Str × PyVal) :=
  [(str "approver", .vStr (str "Jordan")), (str "project_title", .vStr (str "T")),
   (str "goal", .vStr (str "G")), (str "target_audience", .vStr (str "A")),
   (str "primary_cta", .vStr (str "C")), (str "time_sensitivity", .vStr (str "Standard")),
   (str "due_date", .vStr (str "2026-03-05")), (str "required_elements", .vStr (str "logo")),
   (str "references", .vList [str "r"]), (str "open_description", .vStr (str "x")),
   (str "desired_output", .vStr (str "y")), (str "clarifications", .vStr []),
   (str "uploaded_files", .vList [])]

/-- A session sitting in `await_confirmation` with a resolved profile and a
complete, valid answer set. -/
def sessionConfirm : Session :=
  ⟨str "sid", str "await_confirmation", some profile0, some (str "Other"),
   buildQuestionQueue (str "Other"), 13, answersFull, some (str "S"), none, .vNone, 0,
   none, 5, [], 0, 0, none⟩

/-- A session at the first question of the "Other" queue, no pending
clarification. -/
def sessionQuestion : Session :=
  ⟨str "sid", str "await_question", some profile0, some (str "Other"),
   buildQuestionQueue (str "Other"), 0, [(str "approver", .vStr (str "Jordan"))], none,
   none, .vNone, 0, none, 3, [], 0, 0, none⟩

/-- `answersFull` with an impossible (but ISO-shaped) due date and without the
trailing upload answer. -/
def answersBadDate : List (Str × PyVal) :=
  ((answersFull.map (fun kv =>
    if kv.1 = str "due_date" then (kv.1, PyVal.vStr (str "2026-99-99")) else kv)).filter
      (fun kv => kv.1 ≠ str "uploaded_files"))

/-- A session on the last question of the queue with a pending clarification
for it and an invalid stored due date. -/
def sessionPending : Session :=
  ⟨str "sid", str "await_question", some profile0, some (str "Other"),
   buildQuestionQueue (str "Other"), 12, answersBadDate, none, some (str "uploaded_files"),
   .vList [str "f.png"], c055, some (str "To confirm?"), 7, [], 0, 0, none⟩

/-! ### Claims -/

/-- C1: In hybrid field resolution (both service selection via
`_hybrid_match_option` and question answering via
`_hybrid_extract_question_answer`), whenever the deterministic rule path
succeeds with confidence at or above 0.86, the turn's outcome is computed
without any call to the Semantic Extractor: the result is identical for any
two extractor behaviours, and the extractor-invoked flag is false. -/
theorem rule_gate_short_circuits_extractor :
    (∀ (sim : Str → Str → ℚ) (e1 e2 : Option ExtResult) (msg : Str)
       (options : List Str) (sel : Str) (sc : ℚ),
       matchOption sim msg options = (some sel, sc) → sel ≠ [] → c086 ≤ sc →
       hybridMatchOption sim e1 msg options = hybridMatchOption sim e2 msg options ∧
         (hybridMatchOption sim e1 msg options).2 = false) ∧
    (∀ (sim : Str → Str → ℚ) (absFB : Str → Option Str) (today : Nat)
       (e1 e2 : Option ExtResult) (q : Question) (msg : Str),
       (normalizeAnswer sim absFB today msg q.id q.questionType q.required
         q.options (some q.label)).ok = true →
       c086 ≤ (normalizeAnswer sim absFB today msg q.id q.questionType q.required
         q.options (some q.label)).confidence →
       hybridExtract sim absFB today e1 q msg = hybridExtract sim absFB today e2 q msg ∧
         (hybridExtract sim absFB today e1 q msg).2 = false) := by
  constructor
  · intro sim e1 e2 msg options sel sc h hsel hsc
    have hcond : optTruthy (matchOption sim msg options).1 ∧
        c086 ≤ (matchOption sim msg options).2 := by
      rw [h]
      exact ⟨by simpa [optTruthy] using hsel, hsc⟩
    constructor
    · simp only [hybridMatchOption]
      rw [if_pos hcond, if_pos hcond]
    · simp only [hybridMatchOption]
      rw [if_pos hcond]
  · intro sim absFB today e1 e2 q msg hok hconf
    by_cases h1 : (normalizeAnswer sim absFB today msg q.id q.questionType q.required
        q.options (some q.label)).ok = true ∧ q.questionType ≠ str "choice" ∧
        q.questionType ≠ str "date"
    · constructor
      · simp only [hybridExtract]
        rw [if_pos h1, if_pos h1]
      · simp only [hybridExtract]
        rw [if_pos h1]
    · have h2 : (normalizeAnswer sim absFB today msg q.id q.questionType q.required
          q.options (some q.label)).ok = true ∧
          c086 ≤ (normalizeAnswer sim absFB today msg q.id q.questionType q.required
            q.options (some q.label)).confidence := ⟨hok, hconf⟩
      constructor
      · simp only [hybridExtract]
        rw [if_neg h1, if_neg h1, if_pos h2, if_pos h2]
      · simp only [hybridExtract]
        rw [if_neg h1, if_pos h2]

/-- An extractor behaviour that would accept a different option with full
confidence — used to witness that the rule gate ignores it. -/
def extLoud : Option ExtResult :=
  some ⟨true, .lStr (str "Soon"), 1, false, some (str "Are you sure?")⟩

/-- Witness for C1: with rule confidence 1.0 ≥ 0.86 (service selection on an
exact option) and 0.9 ≥ 0.86 (a cleaned free-text answer), the outcome does
not depend on the extractor and the extractor is not called. -/
theorem rule_gate_short_circuits_extractor_witness :
    (hybridMatchOption sim0 none (str "Standard") [str "Standard", str "Soon", str "Urgent"] =
       hybridMatchOption sim0 extLoud (str "Standard") [str "Standard", str "Soon", str "Urgent"] ∧
     (hybridMatchOption sim0 none (str "Standard") [str "Standard", str "Soon", str "Urgent"]).2 = false) ∧
    (hybridExtract sim0 absFB0 0 none ((coreQuestions.getD 0 uploadQuestion)) (str "my project title is Hello") =
       hybridExtract sim0 absFB0 0 extLoud ((coreQuestions.getD 0 uploadQuestion)) (str "my project title is Hello") ∧
     (hybridExtract sim0 absFB0 0 none ((coreQuestions.getD 0 uploadQuestion)) (str "my project title is Hello")).2 = false) :=
  ⟨rule_gate_short_circuits_extractor.1 sim0 none extLoud (str "Standard")
      [str "Standard", str "Soon", str "Urgent"] (str "Standard") 1 (by decide) (by decide)
      (by decide),
   rule_gate_short_circuits_extractor.2 sim0 absFB0 0 none extLoud ((coreQuestions.getD 0 uploadQuestion))
      (str "my project title is Hello") (by decide) (by decide)⟩

/-- C6: for every field descriptor, a required field with empty trimmed input
fails with confidence 0 and the response-required message; an optional field
with empty trimmed input or one of the skip phrases (skip, none, n/a,
not applicable) succeeds with an empty normalized value and confidence 1. -/
theorem normalize_answer_empty_and_skip
    (sim : Str → Str → ℚ) (absFB : Str → Option Str) (today : Nat)
    (t qid qt : Str) (options : List Str) (qlabel : Option Str) :
    (pyStrip t = [] →
      normalizeAnswer sim absFB today t qid qt true options qlabel =
        ⟨false, .vNone, none, 0,
          some (str "I need a response for this item before I can continue."),
          options, []⟩) ∧
    (pyStrip t = [] ∨
        lowerStr (pyStrip t) = str "skip" ∨ lowerStr (pyStrip t) = str "none" ∨
        lowerStr (pyStrip t) = str "n/a" ∨ lowerStr (pyStrip t) = str "not applicable" →
      normalizeAnswer sim absFB today t qid qt false options qlabel =
        ⟨true, .vStr [], none, 1, none, [], []⟩) := by
  constructor
  · intro h
    simp only [normalizeAnswer]
    rw [if_neg (by simp), if_pos (by simp [h])]
  · intro h
    have hcond : pyStrip t = [] ∨ fullmatchAnyCI skipLits (pyStrip t) = true := by
      rcases h with h | h | h | h | h
      · exact Or.inl h
      all_goals
        refine Or.inr ?_
        simp [fullmatchAnyCI, skipLits, h]
    simp only [normalizeAnswer]
    rw [if_pos (by simpa using hcond)]

/-- Witness for C6 at a whitespace-only required input and at an optional
`n/a` input. -/
theorem normalize_answer_empty_and_skip_witness :
    (normalizeAnswer sim0 absFB0 0 (str "  ") (str "goal") (str "text") true [] none =
      ⟨false, .vNone, none, 0,
        some (str "I need a response for this item before I can continue."), [], []⟩) ∧
    (normalizeAnswer sim0 absFB0 0 (str "n/a") (str "references") (str "text") false [] none =
      ⟨true, .vStr [], none, 1, none, [], []⟩) :=
  ⟨(normalize_answer_empty_and_skip sim0 absFB0 0 (str "  ") (str "goal") (str "text")
      [] none).1 (by decide),
   (normalize_answer_empty_and_skip sim0 absFB0 0 (str "n/a") (str "references") (str "text")
      [] none).2 (by decide)⟩

/-- Counterexample for C7: matching the option "Yes" by its own exact label
in the yes/no option set returns that option with score 0.99, not 1.0 (the
yes/no special case of `match_option` fires before exact matching). -/
theorem option_exact_label_counterexample :
    (str "Yes") ∈ [str "Yes", str "No"] ∧
    matchOption sim0 (str "Yes") [str "Yes", str "No"] = (some (str "Yes"), c099) ∧
    c099 ≠ 1 := by
  refine ⟨by decide, by decide, by decide⟩

/-- The similarity loop returns the first option whose normalized label
equals the (non-empty) normalized input, with score exactly 1. -/
theorem simLoop_exact (sim : Str → Str → ℚ) (ni : Str) (o' : Str) :
    ∀ (options : List Str) (best : Option Str) (bs : ℚ),
      options.find? (fun x => normalizeText x = ni) = some o' →
      simLoop sim ni options best bs = (some o', 1) := by
  intro options
  induction options with
  | nil => intro best bs h; simp at h
  | cons o rest ih =>
    intro best bs h
    by_cases ho : normalizeText o = ni
    · have hoo : o = o' := by
        rw [List.find?_cons_of_pos _ (by simpa using ho)] at h
        exact Option.some.inj h
      subst hoo
      simp [simLoop, ho]
    · rw [List.find?_cons_of_neg _ (by simpa using ho)] at h
      simp only [simLoop]
      rw [if_neg ho]
      split_ifs <;> exact ih _ _ h

/-- C7 (amended): for a non-empty option list, matching text whose normalized
form equals some option's non-empty normalized label returns — with score
exactly 1.0 — the first option carrying that normalized label (the option
itself whenever normalized labels are distinct), except in the special case
where the option set normalizes to contain both "yes" and "no" and the
stripped text is a yes/no-family token (score 0.99, see the counterexample). -/
theorem option_exact_label_amended (sim : Str → Str → ℚ) (t o : Str)
    (options : List Str) (ho : o ∈ options) (hn : normalizeText t = normalizeText o)
    (hne : normalizeText t ≠ [])
    (hyn : ¬ ((normalizedLookup options (str "yes")).isSome = true ∧
              (normalizedLookup options (str "no")).isSome = true ∧
              (fullmatchAnyCI yesLits (pyStrip t) = true ∨
                fullmatchAnyCI noLits (pyStrip t) = true))) :
    ∃ o', options.find? (fun x => normalizeText x = normalizeText t) = some o' ∧
      normalizeText o' = normalizeText t ∧
      matchOption sim t options = (some o', 1) := by
  have hfind : ∃ o', options.find? (fun x => normalizeText x = normalizeText t) = some o' := by
    cases hf : options.find? (fun x => normalizeText x = normalizeText t) with
    | some a => exact ⟨a, rfl⟩
    | none =>
      rw [List.find?_eq_none] at hf
      exact absurd (by simpa using hn.symm) (by simpa using hf o ho)
  obtain ⟨o', hf⟩ := hfind
  have hno' : normalizeText o' = normalizeText t := by
    have := List.find?_some hf
    simpa using this
  refine ⟨o', hf, hno', ?_⟩
  have htail : matchOptionTail sim t options = (some o', 1) := by
    have hsl : simLoop sim (normalizeText t) options none 0 = (some o', 1) :=
      simLoop_exact sim (normalizeText t) o' options none 0 hf
    simp only [matchOptionTail, matchBySimilarity]
    rw [if_neg hne, hsl]
  have hnil : options ≠ [] := List.ne_nil_of_mem ho
  simp only [matchOption]
  rw [if_neg hnil]
  cases hyy : normalizedLookup options (str "yes") with
  | none => exact htail
  | some yesOpt =>
    cases hnn : normalizedLookup options (str "no") with
    | none => exact htail
    | some noOpt =>
      have hy : fullmatchAnyCI yesLits (pyStrip t) = false := by
        cases hb : fullmatchAnyCI yesLits (pyStrip t) with
        | false => rfl
        | true => exact absurd ⟨by simp [hyy], by simp [hnn], Or.inl hb⟩ hyn
      have hn0 : fullmatchAnyCI noLits (pyStrip t) = false := by
        cases hb : fullmatchAnyCI noLits (pyStrip t) with
        | false => rfl
        | true => exact absurd ⟨by simp [hyy], by simp [hnn], Or.inr hb⟩ hyn
      show (if fullmatchAnyCI yesLits (pyStrip t) = true then (some yesOpt, c099)
        else if fullmatchAnyCI noLits (pyStrip t) = true then (some noOpt, c099)
        else matchOptionTail sim t options) = (some o', 1)
      rw [if_neg (by simp [hy]), if_neg (by simp [hn0])]
      exact htail

/-- Witness for C7 (amended): matching "press RELEASE!" against
["Press release", "Other"] returns "Press release" with score exactly 1. -/
theorem option_exact_label_amended_witness :
    matchOption sim0 (str "press RELEASE!") [str "Press release", str "Other"] =
      (some (str "Press release"), 1) := by
  obtain ⟨o', h1, _, h3⟩ := option_exact_label_amended sim0 (str "press RELEASE!")
    (str "Press release") [str "Press release", str "Other"] (by decide) (by decide)
    (by decide) (by decide)
  have hf : ([str "Press release", str "Other"].find?
      (fun x => normalizeText x = normalizeText (str "press RELEASE!"))) =
      some (str "Press release") := by decide
  rw [hf] at h1
  injection h1 with h1
  rw [← h1] at h3
  exact h3

/-- Arithmetic of the `next <weekday>` offset: strictly in the future, at
most a week ahead, landing on the requested weekday, and wrapping a full
7 days when today already is that weekday. -/
theorem nextDelta_spec (today target : Nat) (ht : target < 7) :
    1 ≤ nextDelta today target ∧ nextDelta today target ≤ 7 ∧
    weekdayOf (today + nextDelta today target) = target ∧
    (weekdayOf today = target → nextDelta today target = 7) := by
  simp only [nextDelta, weekdayOf]
  split_ifs with h <;> omega

/-- C8: for every weekday name and every value of today, parsing
`next <weekday>` yields the ISO date of `today + d` with `1 ≤ d ≤ 7`, the
weekday of `today + d` equal to the requested one, and `d = 7` when today
already is that weekday (so `next monday` on a Monday is today plus 7). -/
theorem next_weekday_strictly_future (absFB : Str → Option Str) (today : Nat)
    (w : Str) (target : Nat) (hw : (w, target) ∈ weekdayTable) :
    parseDateInput absFB today (str "next " ++ w) =
      some (isoOfDay (today + nextDelta today target)) ∧
    1 ≤ nextDelta today target ∧ nextDelta today target ≤ 7 ∧
    weekdayOf (today + nextDelta today target) = target ∧
    (weekdayOf today = target → nextDelta today target = 7) := by
  have ht : target < 7 := by
    simp [weekdayTable] at hw
    rcases hw with ⟨_, h⟩ | ⟨_, h⟩ | ⟨_, h⟩ | ⟨_, h⟩ | ⟨_, h⟩ | ⟨_, h⟩ | ⟨_, h⟩ <;> omega
  have harith := nextDelta_spec today target ht
  refine ⟨?_, harith.1, harith.2.1, harith.2.2.1, harith.2.2.2⟩
  simp [weekdayTable] at hw
  rcases hw with ⟨hw, h⟩ | ⟨hw, h⟩ | ⟨hw, h⟩ | ⟨hw, h⟩ | ⟨hw, h⟩ | ⟨hw, h⟩ | ⟨hw, h⟩ <;>
    subst hw <;> subst h <;> rfl

/-- Witness for C8: day 20000 (2024-10-04, a Friday); `next monday` resolves
three days ahead to 2024-10-07, a Monday. -/
theorem next_weekday_strictly_future_witness :
    parseDateInput absFB0 20000 (str "next " ++ str "monday") =
      some (isoOfDay (20000 + nextDelta 20000 0)) ∧
    1 ≤ nextDelta 20000 0 ∧ nextDelta 20000 0 ≤ 7 ∧
    weekdayOf (20000 + nextDelta 20000 0) = 0 ∧
    (weekdayOf 20000 = 0 → nextDelta 20000 0 = 7) :=
  next_weekday_strictly_future absFB0 20000 (str "monday") 0 (by decide)

/-- A character that can start an ordinal suffix (`s`, `n`, `r`, `t`,
case-insensitively). -/
def isOrdStart (c : Char) : Bool :=
  pyLower c = 's' ∨ pyLower c = 'n' ∨ pyLower c = 'r' ∨ pyLower c = 't'

theorem digit_cases {c : Char} (h : isDigitChar c = true) :
    c = '0' ∨ c = '1' ∨ c = '2' ∨ c = '3' ∨ c = '4' ∨ c = '5' ∨ c = '6' ∨ c = '7' ∨
      c = '8' ∨ c = '9' := by
  simp [isDigitChar] at h
  tauto

theorem digit_not_space {c : Char} (h : isDigitChar c = true) : pySpace c = false := by
  rcases digit_cases h with h | h | h | h | h | h | h | h | h | h <;> subst h <;> decide

theorem digit_word {c : Char} (h : isDigitChar c = true) : isWordChar c = true := by
  rcases digit_cases h with h | h | h | h | h | h | h | h | h | h <;> subst h <;> decide

theorem digit_not_ordStart {c : Char} (h : isDigitChar c = true) :
    isOrdStart c = false := by
  rcases digit_cases h with h | h | h | h | h | h | h | h | h | h <;> subst h <;> decide

theorem digit_lower_ne_n {c : Char} (h : isDigitChar c = true) :
    ¬ pyLower (pyLower c) = pyLower 'n' := by
  rcases digit_cases h with h | h | h | h | h | h | h | h | h | h <;> subst h <;> decide

theorem ordPair_start {a b : Char} (h : isOrdPair a b = true) : isOrdStart a = true := by
  simp [isOrdPair] at h
  simp [isOrdStart]
  tauto

theorem ordSuffixSplit_none {l : List Char} (h : ∀ x ∈ l, isOrdStart x = false) :
    ordSuffixSplit l = none := by
  match l with
  | [] => rfl
  | [_] => rfl
  | x :: y :: rest =>
    simp only [ordSuffixSplit]
    rw [if_neg]
    intro hc
    have := ordPair_start hc
    rw [h x (by simp)] at this
    exact Bool.false_ne_true this

/-- `ordSub` never changes a string containing no ordinal-suffix starter. -/
theorem ordSub_no_ord (fuel : Nat) :
    ∀ (prev : Option Char) (l : List Char),
      (∀ x ∈ l, isOrdStart x = false) → ordSub fuel prev l = l := by
  induction fuel with
  | zero => intro prev l _; rfl
  | succ fuel ih =>
    intro prev l h
    match l with
    | [] => rfl
    | c :: rest =>
      have hrest : ∀ x ∈ rest, isOrdStart x = false := fun x hx => h x (by simp [hx])
      by_cases hb : (boundaryB prev = true ∧ isDigitChar c = true)
      · have hafter : ∀ x ∈ rest.dropWhile isDigitChar, isOrdStart x = false :=
          fun x hx => hrest x ((List.dropWhile_sublist _).subset hx)
        simp only [ordSub]
        rw [if_pos hb, ordSuffixSplit_none hafter]
        exact congrArg (c :: ·) (ih (some c) rest hrest)
      · simp only [ordSub]
        rw [if_neg hb]
        exact congrArg (c :: ·) (ih (some c) rest hrest)

theorem stripOrdinals_no_ord {l : List Char} (h : ∀ x ∈ l, isOrdStart x = false) :
    stripOrdinals l = l :=
  ordSub_no_ord l.length none l h

/-- Core of C9: an ISO-shaped string is returned unchanged by
`parse_date_input`, with no calendar validation. -/
theorem parse_iso_ten (absFB : Str → Option Str) (today : Nat)
    (a b c d e f g i : Char) (ha : isDigitChar a = true) (hb : isDigitChar b = true)
    (hc : isDigitChar c = true) (hd : isDigitChar d = true) (he : isDigitChar e = true)
    (hf : isDigitChar f = true) (hg : isDigitChar g = true) (hi : isDigitChar i = true) :
    parseDateInput absFB today [a, b, c, d, '-', e, f, '-', g, i] =
      some [a, b, c, d, '-', e, f, '-', g, i] := by
  have hmem : ∀ x ∈ ([a, b, c, d, '-', e, f, '-', g, i] : Str), isOrdStart x = false := by
    intro x hx
    simp only [List.mem_cons, List.not_mem_nil, or_false] at hx
    rcases hx with h | h | h | h | h | h | h | h | h | h <;> subst h
    · exact digit_not_ordStart ha
    · exact digit_not_ordStart hb
    · exact digit_not_ordStart hc
    · exact digit_not_ordStart hd
    · decide
    · exact digit_not_ordStart he
    · exact digit_not_ordStart hf
    · decide
    · exact digit_not_ordStart hg
    · exact digit_not_ordStart hi
  have hso : stripOrdinals [a, b, c, d, '-', e, f, '-', g, i] =
      [a, b, c, d, '-', e, f, '-', g, i] := stripOrdinals_no_ord hmem
  have hstrip : pyStrip [a, b, c, d, '-', e, f, '-', g, i] =
      [a, b, c, d, '-', e, f, '-', g, i] := by
    simp [pyStrip, List.dropWhile_cons, digit_not_space ha, digit_not_space hi]
  have hiso : isIsoShape [a, b, c, d, '-', e, f, '-', g, i] = true := by
    simp [isIsoShape, ha, hb, hc, hd, he, hf, hg, hi]
  have hn1 : matchesAtCI (str "next") (lowerStr [a, b, c, d, '-', e, f, '-', g, i]) =
      none := by
    show matchesAtCI ('n' :: str "ext")
      (pyLower a :: lowerStr [b, c, d, '-', e, f, '-', g, i]) = none
    simp only [matchesAtCI]
    rw [if_neg (digit_lower_ne_n ha)]
  have hlen : ∀ (w : Str), w.length ≠ 10 →
      ¬ lowerStr [a, b, c, d, '-', e, f, '-', g, i] = w := by
    intro w hw hEq
    apply hw
    have := congrArg List.length hEq
    simpa [lowerStr] using this.symm
  simp only [parseDateInput]
  rw [hso, hstrip]
  rw [if_neg (show ¬ ([a, b, c, d, '-', e, f, '-', g, i] : Str) = [] by simp)]
  rw [if_neg (hlen (str "today") (by decide))]
  rw [if_neg (show ¬ (lowerStr [a, b, c, d, '-', e, f, '-', g, i] = str "tomorrow" ∨
      lowerStr [a, b, c, d, '-', e, f, '-', g, i] = str "tmr" ∨
      lowerStr [a, b, c, d, '-', e, f, '-', g, i] = str "tmrw") by
    rintro (h | h | h)
    · exact hlen (str "tomorrow") (by decide) h
    · exact hlen (str "tmr") (by decide) h
    · exact hlen (str "tmrw") (by decide) h)]
  simp only [nextWeekdayMatch, hn1]
  rw [if_pos hiso]

/-- Any string whose trimmed form is ISO-shaped passes through
`parse_date_input` unchanged. -/
theorem parse_iso_strip (absFB : Str → Option Str) (today : Nat) (t : Str)
    (h : isIsoShape (pyStrip t) = true) :
    parseDateInput absFB today (pyStrip t) = some (pyStrip t) := by
  generalize pyStrip t = l at h ⊢
  rcases l with _ | ⟨a, _ | ⟨b, _ | ⟨c, _ | ⟨d, _ | ⟨x1, _ | ⟨e, _ | ⟨f, _ | ⟨x2, _ |
    ⟨g, _ | ⟨i, _ | ⟨z, rest⟩⟩⟩⟩⟩⟩⟩⟩⟩⟩⟩
  iterate 10 exact nomatch h
  case cons.cons.cons.cons.cons.cons.cons.cons.cons.cons.nil =>
    simp only [isIsoShape, decide_eq_true_eq] at h
    obtain ⟨ha, hb, hc, hd, hx1, he, hf, hx2, hg, hi⟩ := h
    subst hx1
    subst hx2
    exact parse_iso_ten absFB today a b c d e f g i (by simpa using ha) (by simpa using hb)
      (by simpa using hc) (by simpa using hd) (by simpa using he) (by simpa using hf)
      (by simpa using hg) (by simpa using hi)
  case cons.cons.cons.cons.cons.cons.cons.cons.cons.cons.cons =>
    exact nomatch h

/-- On a date field, a successfully parsed input is accepted at confidence
0.95 with the parse result as the normalized value. -/
theorem normalize_date_of_parse (sim : Str → Str → ℚ) (absFB : Str → Option Str)
    (today : Nat) (t qid : Str) (options : List Str) (qlabel : Option Str)
    (hne : pyStrip t ≠ [])
    (hp : parseDateInput absFB today (pyStrip t) = some (pyStrip t)) :
    normalizeAnswer sim absFB today t qid (str "date") true options qlabel =
      ⟨true, .vStr (pyStrip t), none, c095, none, [], []⟩ := by
  simp only [normalizeAnswer]
  rw [if_neg (by simp), if_neg (by simp [hne]), if_neg (by decide), if_pos trivial, hp]
  simp [hne]

/-- C9: any string whose trimmed form matches the `DDDD-DD-DD` shape is
returned unchanged by date parsing, with no calendar validation (so date
normalization is idempotent on ISO-shaped strings, and `normalize_answer`
on a date field returns ok with that string at confidence 0.95); the
impossible date `2026-99-99` is only rejected later by the payload
validation (`pydValidDate`). -/
theorem iso_date_passthrough (sim : Str → Str → ℚ) (absFB : Str → Option Str)
    (today : Nat) (t qid : Str) (options : List Str) (qlabel : Option Str)
    (h : isIsoShape (pyStrip t) = true) :
    parseDateInput absFB today (pyStrip t) = some (pyStrip t) ∧
    normalizeAnswer sim absFB today t qid (str "date") true options qlabel =
      ⟨true, .vStr (pyStrip t), none, c095, none, [], []⟩ ∧
    pydValidDate (str "2026-99-99") = none := by
  have hne : pyStrip t ≠ [] := by
    intro hnil
    rw [hnil] at h
    exact nomatch h
  have hp := parse_iso_strip absFB today t h
  exact ⟨hp, normalize_date_of_parse sim absFB today t qid options qlabel hne hp,
    by decide⟩

/-- Witness for C9 at the impossible date "2026-99-99". -/
theorem iso_date_passthrough_witness :
    parseDateInput absFB0 0 (pyStrip (str "2026-99-99")) = some (pyStrip (str "2026-99-99")) ∧
    normalizeAnswer sim0 absFB0 0 (str "2026-99-99") (str "due_date") (str "date") true [] none =
      ⟨true, .vStr (pyStrip (str "2026-99-99")), none, c095, none, [], []⟩ ∧
    pydValidDate (str "2026-99-99") = none :=
  iso_date_passthrough sim0 absFB0 0 (str "2026-99-99") (str "due_date") [] none (by decide)

/-- C10: a non-empty caller-provided session id that is not in the store is
discarded when `reset` is false — the new session is created under the
freshly generated id — and is kept only when `reset` is true. -/
theorem unknown_session_id_discarded (sessions : List (Str × Session))
    (sid freshId : Str) (hsid : sid ≠ [])
    (habs : sessions.find? (fun kv => kv.1 = sid) = none) :
    ((getOrCreateSession sessions (some sid) false freshId).2.sessionId = freshId ∧
      (freshId ≠ sid →
        (getOrCreateSession sessions (some sid) false freshId).2.sessionId ≠ sid)) ∧
    (getOrCreateSession sessions (some sid) true freshId).2.sessionId = sid := by
  refine ⟨⟨?_, ?_⟩, ?_⟩
  · simp [getOrCreateSession, optTruthy, hsid, habs, newSession]
  · intro hne
    simp [getOrCreateSession, optTruthy, hsid, habs, newSession, hne]
  · simp [getOrCreateSession, optTruthy, hsid, newSession]

/-- Witness for C10 with an empty store and distinct ids. -/
theorem unknown_session_id_discarded_witness :
    ((getOrCreateSession [] (some (str "caller-id")) false (str "fresh-uuid")).2.sessionId =
        str "fresh-uuid" ∧
      (str "fresh-uuid" ≠ str "caller-id" →
        (getOrCreateSession [] (some (str "caller-id")) false (str "fresh-uuid")).2.sessionId ≠
          str "caller-id")) ∧
    (getOrCreateSession [] (some (str "caller-id")) true (str "fresh-uuid")).2.sessionId =
      str "caller-id" :=
  unknown_session_id_discarded [] (str "caller-id") (str "fresh-uuid") (by decide) (by decide)

/-- C3: in `await_confirmation` with a resolved profile and a valid assembled
payload, a submit-family (non-restart) message performs exactly one
ticket-creation call and one log-append call, moves to phase `done` and
returns the non-empty log id as `request_id`; if the Ticketing Sink raises,
the session is unchanged (still `await_confirmation`), the response carries
`ready_to_submit = true`, and no log-append call happens. -/
theorem confirmed_submit_exactly_once (O : Oracles) (s : Session) (msg : Str)
    (p : Profile) (pl : Payload) (lg : LogRecord)
    (hphase : s.phase = str "await_confirmation")
    (hp : s.clientProfile = some p)
    (hpl : buildSubmissionPayload s = .ok pl)
    (hrs : searchAny restartWords (lowerStr (pyStrip msg)) = false)
    (hsub : searchAny submitWords (lowerStr (pyStrip msg)) = true)
    (hlog : O.createLog = .ok lg) (hid : lg.id ≠ []) :
    (∀ m : MondayResult, O.monday = .ok m →
      (handleConfirmation O s msg).1.phase = str "done" ∧
      (handleConfirmation O s msg).2.2 = [Eff.ticketCall, Eff.logCall] ∧
      (handleConfirmation O s msg).2.1.requestId = some lg.id ∧ lg.id ≠ []) ∧
    (∀ e : Str, O.monday = .error e →
      (handleConfirmation O s msg).1 = s ∧
      (handleConfirmation O s msg).1.phase = str "await_confirmation" ∧
      (handleConfirmation O s msg).2.1.readyToSubmit = true ∧
      (handleConfirmation O s msg).2.2 = [Eff.ticketCall]) := by
  constructor
  · intro m hm
    refine ⟨?_, ?_, ?_, hid⟩ <;>
      simp [handleConfirmation, hp, hpl, hm, hlog, hrs, hsub, mkResp]
  · intro e hm
    refine ⟨?_, ?_, ?_, ?_⟩ <;>
      simp [handleConfirmation, hp, hpl, hm, hlog, hrs, hsub, mkResp,
        confirmationErrResp, hphase]

/-- Witness for C3 at "looks good, submit" on a complete confirmation
session, with succeeding and raising ticket sinks. -/
theorem confirmed_submit_exactly_once_witness :
    ((handleConfirmation oraclesOk sessionConfirm (str "looks good, submit")).1.phase =
        str "done" ∧
      (handleConfirmation oraclesOk sessionConfirm (str "looks good, submit")).2.2 =
        [Eff.ticketCall, Eff.logCall] ∧
      (handleConfirmation oraclesOk sessionConfirm (str "looks good, submit")).2.1.requestId =
        some (str "LOG1")) ∧
    ((handleConfirmation oraclesTicketFail sessionConfirm (str "looks good, submit")).1 =
        sessionConfirm ∧
      (handleConfirmation oraclesTicketFail sessionConfirm
          (str "looks good, submit")).2.1.readyToSubmit = true ∧
      (handleConfirmation oraclesTicketFail sessionConfirm (str "looks good, submit")).2.2 =
        [Eff.ticketCall]) := by
  have hokb : (buildSubmissionPayload sessionConfirm).isOk = true := by decide
  rcases hpl : buildSubmissionPayload sessionConfirm with e | pl
  · rw [hpl] at hokb
    simp [Except.isOk, Except.toBool] at hokb
  · have h1 := confirmed_submit_exactly_once oraclesOk sessionConfirm
      (str "looks good, submit") profile0 pl ⟨str "LOG1"⟩ (by decide) (by decide) hpl
      (by decide) (by decide) rfl (by decide)
    have h2 := confirmed_submit_exactly_once oraclesTicketFail sessionConfirm
      (str "looks good, submit") profile0 pl ⟨str "LOG1"⟩ (by decide) (by decide) hpl
      (by decide) (by decide) rfl (by decide)
    obtain ⟨ha, hb, hc, _⟩ := h1.1 ⟨str "ITEM1", none, true⟩ rfl
    obtain ⟨hd, _, he, hf⟩ := h2.2 (str "boom") rfl
    exact ⟨⟨ha, hb, hc⟩, ⟨hd, he, hf⟩⟩

/-- Counterexample for C4: in phase `await_question` a restart-family message
("restart") receives no special handling — it is consumed as the answer to
the current question (project title becomes "restart", the index advances)
and the session does not return to `await_service` with reset answers. -/
theorem restart_any_phase_counterexample :
    searchAny restartWords (lowerStr (pyStrip (str "restart"))) = true ∧
    sessionQuestion.phase = str "await_question" ∧
    (handleQuestionResponse sim0 absFB0 0 oraclesOk sessionQuestion (str "restart")).1.phase =
      str "await_question" ∧
    dictGet (handleQuestionResponse sim0 absFB0 0 oraclesOk sessionQuestion
        (str "restart")).1.answers (str "project_title") = some (.vStr (str "restart")) ∧
    (handleQuestionResponse sim0 absFB0 0 oraclesOk sessionQuestion
        (str "restart")).1.questionIndex = 1 := by
  refine ⟨by decide, by decide, by decide, by decide, by decide⟩

/-- The default-approver seeding of `_reset_intake_only`. -/
def approverSeed (p : Profile) : Str :=
  match p.defaultApprover with
  | some a => a
  | none => []

/-- C4 (amended): only in phases `await_confirmation` and `done` does a
message containing a restart-family phrase return the session (with a
resolved profile) to `await_service`, clearing the service type, the
question queue and index, the summary and the pending clarification, and
resetting answers to exactly the approver inherited from the profile; in
`await_service` and `await_question` restart phrases are processed as
ordinary input (see the counterexample). -/
theorem restart_resets_intake (O : Oracles) (s : Session) (msg : Str) (p : Profile)
    (hp : s.clientProfile = some p) :
    (searchAny restartWords (lowerStr (pyStrip msg)) = true →
      (handleConfirmation O s msg).1 = resetIntakeOnly s ∧
      (handleConfirmation O s msg).1.phase = str "await_service" ∧
      (handleConfirmation O s msg).1.serviceType = none ∧
      (handleConfirmation O s msg).1.questions = [] ∧
      (handleConfirmation O s msg).1.questionIndex = 0 ∧
      (handleConfirmation O s msg).1.summary = none ∧
      (handleConfirmation O s msg).1.pendingFieldId = none ∧
      (handleConfirmation O s msg).1.answers = [(str "approver", PyVal.vStr (approverSeed p))]) ∧
    ((searchAny restartWords msg || strHas (lowerStr msg) (str "start new request")) = true →
      (handleDone O s msg).1 = resetIntakeOnly s ∧
      (handleDone O s msg).1.phase = str "await_service" ∧
      (handleDone O s msg).1.serviceType = none ∧
      (handleDone O s msg).1.questions = [] ∧
      (handleDone O s msg).1.questionIndex = 0 ∧
      (handleDone O s msg).1.summary = none ∧
      (handleDone O s msg).1.pendingFieldId = none ∧
      (handleDone O s msg).1.answers = [(str "approver", PyVal.vStr (approverSeed p))]) := by
  constructor
  · intro hr
    have hsess : (handleConfirmation O s msg).1 = resetIntakeOnly s := by
      simp [handleConfirmation, hp, hr]
    refine ⟨hsess, ?_, ?_, ?_, ?_, ?_, ?_, ?_⟩ <;>
      rw [hsess] <;>
      simp [resetIntakeOnly, clearPendingClarification, hp, approverSeed]
  · intro hr
    have hsess : (handleDone O s msg).1 = resetIntakeOnly s := by
      simp only [handleDone]
      rw [if_pos (by simpa using hr)]
    refine ⟨hsess, ?_, ?_, ?_, ?_, ?_, ?_, ?_⟩ <;>
      rw [hsess] <;>
      simp [resetIntakeOnly, clearPendingClarification, hp, approverSeed]

/-- Witness for C4 (amended) at "restart" in confirmation and
"start new request" in done. -/
theorem restart_resets_intake_witness :
    ((handleConfirmation oraclesOk sessionConfirm (str "restart")).1.phase =
        str "await_service" ∧
      (handleConfirmation oraclesOk sessionConfirm (str "restart")).1.answers =
        [(str "approver", PyVal.vStr (approverSeed profile0))]) ∧
    ((handleDone oraclesOk sessionConfirm (str "start new request")).1.phase =
        str "await_service" ∧
      (handleDone oraclesOk sessionConfirm (str "start new request")).1.answers =
        [(str "approver", PyVal.vStr (approverSeed profile0))]) := by
  have h := restart_resets_intake oraclesOk sessionConfirm (str "restart") profile0 rfl
  have h2 := restart_resets_intake oraclesOk sessionConfirm (str "start new request")
    profile0 rfl
  obtain ⟨_, ha, _, _, _, _, _, hb⟩ := h.1 (by decide)
  obtain ⟨_, hc, _, _, _, _, _, hd⟩ := h2.2 (by decide)
  exact ⟨⟨ha, hb⟩, ⟨hc, hd⟩⟩

/-- A session holding only the approver and a valid due date, with the
service type set: every other required core answer is absent. -/
def sessionMinimal : Session :=
  ⟨str "sid", str "await_question", some profile0, some (str "Other"),
   buildQuestionQueue (str "Other"), 0,
   [(str "approver", .vStr (str "Jordan")), (str "due_date", .vStr (str "2026-03-05"))],
   none, none, .vNone, 0, none, 1, [], 0, 0, none⟩

/-- The payload assembled from `sessionMinimal`: the missing core fields are
silently defaulted. -/
def payloadMinimal : Payload :=
  ⟨str "Other", [], [], [], [], str "Standard", 2026, 3, 5, some (str "Jordan"),
   none, [], [], [], none⟩

/-- Counterexample for C5: with the service type set and a valid due date,
payload assembly succeeds even though project title, goal, target audience,
primary CTA and time sensitivity have no accepted answer — the missing text
fields silently default to the empty string and time sensitivity to
"Standard" (no validation error is raised). -/
theorem payload_missing_core_counterexample :
    sessionMinimal.serviceType = some (str "Other") ∧
    dictGet sessionMinimal.answers (str "project_title") = none ∧
    dictGet sessionMinimal.answers (str "goal") = none ∧
    dictGet sessionMinimal.answers (str "time_sensitivity") = none ∧
    (buildSubmissionPayload sessionMinimal).toOption = some payloadMinimal ∧
    payloadMinimal.projectTitle = [] ∧ payloadMinimal.goal = [] ∧
    payloadMinimal.timeSensitivity = str "Standard" := by
  refine ⟨by decide, by decide, by decide, by decide, by decide, by decide, by decide,
    by decide⟩

/-- C5 (amended): payload assembly raises a validation error when the service
type is unset or empty, and when the due-date answer is absent (so that the
empty string reaches date validation); the other required core fields are
silently defaulted instead of raising (see the counterexample).  When
assembly raises after the queue is exhausted, the engine forces the phase
back to `await_question` on the last question instead of crashing or
submitting. -/
theorem payload_validation_amended (O : Oracles) (s : Session) (p : Profile) :
    ((s.serviceType = none ∨ s.serviceType = some []) →
      buildSubmissionPayload s = .error (str "Service type is missing")) ∧
    (∀ st : Str, s.serviceType = some st → st ≠ [] →
      dictGet s.answers (str "due_date") = none →
      buildSubmissionPayload s = .error (str "validation error for IntakeSubmission")) ∧
    (∀ e : Str, currentQuestion s = none → buildSubmissionPayload s = .error e →
      (advanceAfterAnswer O s p).1.phase = str "await_question" ∧
      (advanceAfterAnswer O s p).1.questionIndex = s.questions.length - 1) := by
  refine ⟨?_, ?_, ?_⟩
  · rintro (h | h) <;> simp [buildSubmissionPayload, h]
  · intro st hst hne hdue
    have hd2 : ((asStrVal (getOrEmpty s.answers (str "due_date"))).bind pydValidDate)
        = none := by
      rw [show getOrEmpty s.answers (str "due_date") = PyVal.vStr [] by
        simp [getOrEmpty, hdue]]
      rfl
    simp [buildSubmissionPayload, hst, hne, hd2]
  · intro e hq herr
    constructor <;> simp [advanceAfterAnswer, hq, herr]

/-- A session with a service type but no due-date answer. -/
def sessionNoDue : Session :=
  ⟨str "sid", str "await_question", some profile0, some (str "Other"),
   buildQuestionQueue (str "Other"), 0, [(str "approver", .vStr (str "Jordan"))],
   none, none, .vNone, 0, none, 1, [], 0, 0, none⟩

/-- An exhausted-queue session whose stored due date is the impossible
`2026-99-99`, so assembly fails. -/
def sessionBadFull : Session :=
  ⟨str "sid", str "await_question", some profile0, some (str "Other"),
   buildQuestionQueue (str "Other"), 13, answersBadDate, none, none, .vNone, 0,
   none, 8, [], 0, 0, none⟩

/-- Witness for C5 (amended): no service type, a missing due date, and the
recovery to `await_question` after a failing assembly on an exhausted
queue. -/
theorem payload_validation_amended_witness :
    buildSubmissionPayload (newSession (str "x")) = .error (str "Service type is missing") ∧
    buildSubmissionPayload sessionNoDue = .error (str "validation error for IntakeSubmission") ∧
    (advanceAfterAnswer oraclesOk sessionBadFull profile0).1.phase = str "await_question" ∧
    (advanceAfterAnswer oraclesOk sessionBadFull profile0).1.questionIndex =
      sessionBadFull.questions.length - 1 :=
  ⟨(payload_validation_amended oraclesOk (newSession (str "x")) profile0).1 (Or.inl rfl),
   (payload_validation_amended oraclesOk sessionNoDue profile0).2.1 (str "Other") rfl
     (by decide) (by decide),
   ((payload_validation_amended oraclesOk sessionBadFull profile0).2.2
     (str "validation error for IntakeSubmission") (by decide) (by rfl)).1,
   ((payload_validation_amended oraclesOk sessionBadFull profile0).2.2
     (str "validation error for IntakeSubmission") (by decide) (by rfl)).2⟩

/-- Ordered-dict insertion makes the key readable. -/
theorem dictGet_alistInsert (k : Str) (v : PyVal) :
    ∀ d : List (Str × PyVal), dictGet (alistInsert d k v) k = some v := by
  intro d
  induction d with
  | nil => simp [alistInsert, dictGet, List.find?]
  | cons kv rest ih =>
    rcases kv with ⟨k0, v0⟩
    simp only [alistInsert]
    by_cases hk : k0 = k
    · rw [if_pos hk]
      subst hk
      simp [dictGet, List.find?]
    · rw [if_neg hk]
      simpa [dictGet, List.find?_cons, hk] using ih

/-- `_advance_after_answer` never touches answers, the pending clarification
or the queue; the index is unchanged except for the clamp to the last
question when the queue is exhausted and payload assembly fails. -/
theorem advance_after_answer_state (O : Oracles) (s : Session) (p : Profile) :
    (advanceAfterAnswer O s p).1.answers = s.answers ∧
    (advanceAfterAnswer O s p).1.pendingFieldId = s.pendingFieldId ∧
    (advanceAfterAnswer O s p).1.questions = s.questions ∧
    ((advanceAfterAnswer O s p).1.questionIndex = s.questionIndex ∨
      (currentQuestion s = none ∧
        (advanceAfterAnswer O s p).1.questionIndex = s.questions.length - 1 ∧
        (advanceAfterAnswer O s p).1.phase = str "await_question")) := by
  rcases hq : currentQuestion s with _ | q
  · rcases hb : buildSubmissionPayload s with e | pl
    · refine ⟨?_, ?_, ?_, Or.inr ⟨rfl, ?_, ?_⟩⟩ <;>
        simp [advanceAfterAnswer, hq, hb]
    · refine ⟨?_, ?_, ?_, Or.inl ?_⟩ <;>
        simp [advanceAfterAnswer, hq, hb]
  · refine ⟨?_, ?_, ?_, Or.inl ?_⟩ <;>
      simp [advanceAfterAnswer, hq]

/-- Counterexample for C2: with a pending clarification on the last question
and an invalid (ISO-shaped but impossible) stored due date, a confirm-family
reply commits the stored candidate but the question index does NOT advance —
payload assembly fails on the exhausted queue and the engine clamps the
index back to the last question. -/
theorem pending_confirm_no_advance_counterexample :
    confirmMatch (pyStrip (str "yes")) = true ∧
    sessionPending.pendingFieldId = some (str "uploaded_files") ∧
    currentQuestion sessionPending = some uploadQuestion ∧
    dictGet (handleQuestionResponse sim0 absFB0 0 oraclesOk sessionPending
        (str "yes")).1.answers (str "uploaded_files") = some (.vList [str "f.png"]) ∧
    (handleQuestionResponse sim0 absFB0 0 oraclesOk sessionPending (str "yes")).1.questionIndex =
      sessionPending.questionIndex := by
  refine ⟨by decide, by decide, by decide, by decide, by decide⟩

/-- Invariant step for a session with no pending clarification: after one
processed message, either no clarification is pending or the single pending
clarification references the question currently being asked. -/
theorem handleQR_invariant_nopend (sim : Str → Str → ℚ) (absFB : Str → Option Str)
    (today : Nat) (O : Oracles) (s : Session) (msg : Str) (q : Question) (p : Profile)
    (hp : s.clientProfile = some p) (hq : currentQuestion s = some q)
    (hnp : s.pendingFieldId = none) :
    (handleQuestionResponse sim absFB today O s msg).1.pendingFieldId = none ∨
      ∃ q', currentQuestion (handleQuestionResponse sim absFB today O s msg).1 = some q' ∧
        (handleQuestionResponse sim absFB today O s msg).1.pendingFieldId = some q'.id := by
  simp only [handleQuestionResponse, hq, hp]
  rw [if_neg (by simp [hnp])]
  dsimp only
  rcases hE : hybridExtract sim absFB today O.ext q msg with ⟨out, called⟩
  rcases out with ⟨value, conf, src⟩ | ⟨value, conf, clar, src⟩ | ⟨message, options⟩ <;>
    dsimp only
  · -- accept
    have := (advance_after_answer_state O
      { clearPendingClarification s with
        answers := alistInsert (clearPendingClarification s).answers q.id value,
        questionIndex := (clearPendingClarification s).questionIndex + 1 } p).2.1
    left
    simpa [clearPendingClarification] using this
  · -- clarify: the pending clarification is set to the current question
    right
    exact ⟨q, hq, rfl⟩
  · -- reject: the session is returned unchanged
    left
    exact hnp

/-- C2 (amended): with a pending clarification on the current question, a
processed message resolves it in exactly one of three mutually exclusive
ways — a confirm-family reply commits the stored candidate to the answers,
clears the clarification and advances the index (except that when the queue
is thereby exhausted and payload assembly fails, the index is clamped back
to the last question, phase `await_question`; see the counterexample); a
reject-family reply only clears the clarification and re-asks; any other
reply behaves exactly as fresh extraction on the clarification-cleared
session — and after any single processed message at most one clarification
is pending, referencing the question currently being asked. -/
theorem pending_clarification_resolution (sim : Str → Str → ℚ)
    (absFB : Str → Option Str) (today : Nat) (O : Oracles) (s : Session) (msg : Str)
    (q : Question) (p : Profile) (hp : s.clientProfile = some p)
    (hq : currentQuestion s = some q) (hpend : s.pendingFieldId = some q.id) :
    (confirmMatch (pyStrip msg) = true →
      dictGet (handleQuestionResponse sim absFB today O s msg).1.answers q.id =
        some s.pendingValue ∧
      (handleQuestionResponse sim absFB today O s msg).1.pendingFieldId = none ∧
      ((handleQuestionResponse sim absFB today O s msg).1.questionIndex =
          s.questionIndex + 1 ∨
        ((handleQuestionResponse sim absFB today O s msg).1.questionIndex =
            s.questionIndex ∧
          (handleQuestionResponse sim absFB today O s msg).1.phase =
            str "await_question"))) ∧
    (confirmMatch (pyStrip msg) = false → rejectMatch (pyStrip msg) = true →
      (handleQuestionResponse sim absFB today O s msg).1 =
        clearPendingClarification s) ∧
    (confirmMatch (pyStrip msg) = false → rejectMatch (pyStrip msg) = false →
      handleQuestionResponse sim absFB today O s msg =
        handleQuestionResponse sim absFB today O (clearPendingClarification s) msg) ∧
    ((handleQuestionResponse sim absFB today O s msg).1.pendingFieldId = none ∨
      ∃ q', currentQuestion (handleQuestionResponse sim absFB today O s msg).1 = some q' ∧
        (handleQuestionResponse sim absFB today O s msg).1.pendingFieldId = some q'.id) := by
  have hq' : currentQuestion (clearPendingClarification s) = some q := hq
  have hp' : (clearPendingClarification s).clientProfile = some p := hp
  have hlt : s.questionIndex < s.questions.length := by
    by_contra hge
    rw [show currentQuestion s = none from
      List.get?_eq_none.mpr (Nat.le_of_not_lt hge)] at hq
    exact Option.noConfusion hq
  have hconf : confirmMatch (pyStrip msg) = true →
      (handleQuestionResponse sim absFB today O s msg).1 =
        (advanceAfterAnswer O
          { clearPendingClarification s with
            answers := alistInsert (clearPendingClarification s).answers q.id
              s.pendingValue,
            questionIndex := (clearPendingClarification s).questionIndex + 1 } p).1 := by
    intro hc
    simp only [handleQuestionResponse, hq, hp]
    rw [if_pos hpend]
    simp only [resolvePendingClarification, hp]
    rw [if_pos hc]
  have hpart1 : confirmMatch (pyStrip msg) = true →
      dictGet (handleQuestionResponse sim absFB today O s msg).1.answers q.id =
        some s.pendingValue ∧
      (handleQuestionResponse sim absFB today O s msg).1.pendingFieldId = none ∧
      ((handleQuestionResponse sim absFB today O s msg).1.questionIndex =
          s.questionIndex + 1 ∨
        ((handleQuestionResponse sim absFB today O s msg).1.questionIndex =
            s.questionIndex ∧
          (handleQuestionResponse sim absFB today O s msg).1.phase =
            str "await_question")) := by
    intro hc
    rw [hconf hc]
    obtain ⟨hans, hpfi, _, hidx⟩ := advance_after_answer_state O
      { clearPendingClarification s with
        answers := alistInsert (clearPendingClarification s).answers q.id s.pendingValue,
        questionIndex := (clearPendingClarification s).questionIndex + 1 } p
    refine ⟨?_, ?_, ?_⟩
    · rw [hans]
      exact dictGet_alistInsert q.id s.pendingValue _
    · rw [hpfi]
      rfl
    · rcases hidx with h | ⟨hnone, hidx, hph⟩
      · left
        rw [h]
        rfl
      · have hle : s.questions.length ≤ s.questionIndex + 1 :=
          List.get?_eq_none.mp hnone
        right
        refine ⟨?_, hph⟩
        rw [hidx]
        show s.questions.length - 1 = s.questionIndex
        omega
  have hpart2 : confirmMatch (pyStrip msg) = false → rejectMatch (pyStrip msg) = true →
      (handleQuestionResponse sim absFB today O s msg).1 =
        clearPendingClarification s := by
    intro hc hr
    simp only [handleQuestionResponse, hq, hp]
    rw [if_pos hpend]
    simp only [resolvePendingClarification, hp]
    rw [if_neg (by simp [hc]), if_pos hr]
  have hpart3 : confirmMatch (pyStrip msg) = false → rejectMatch (pyStrip msg) = false →
      handleQuestionResponse sim absFB today O s msg =
        handleQuestionResponse sim absFB today O (clearPendingClarification s) msg := by
    intro hc hr
    conv_lhs =>
      simp only [handleQuestionResponse, hq, hp]
      rw [if_pos hpend]
      simp only [resolvePendingClarification, hp]
      rw [if_neg (by simp [hc]), if_neg (by simp [hr])]
    conv_rhs =>
      simp only [handleQuestionResponse, hq', hp']
      rw [if_neg (show ¬ (clearPendingClarification s).pendingFieldId = some q.id by
        simp [clearPendingClarification])]
  refine ⟨hpart1, hpart2, hpart3, ?_⟩
  rcases hc : confirmMatch (pyStrip msg) with _ | _
  · rcases hr : rejectMatch (pyStrip msg) with _ | _
    · rw [hpart3 hc hr]
      exact handleQR_invariant_nopend sim absFB today O (clearPendingClarification s)
        msg q p hp' hq' (by simp [clearPendingClarification])
    · rw [hpart2 hc hr]
      left
      simp [clearPendingClarification]
  · exact Or.inl (hpart1 hc).2.1

/-- Witness for C2 (amended) on a concrete pending-clarification session and
the confirm reply "yes". -/
theorem pending_clarification_resolution_witness :
    (confirmMatch (pyStrip (str "yes")) = true →
      dictGet (handleQuestionResponse sim0 absFB0 0 oraclesOk sessionPending
          (str "yes")).1.answers uploadQuestion.id = some sessionPending.pendingValue ∧
      (handleQuestionResponse sim0 absFB0 0 oraclesOk sessionPending
          (str "yes")).1.pendingFieldId = none ∧
      ((handleQuestionResponse sim0 absFB0 0 oraclesOk sessionPending
            (str "yes")).1.questionIndex = sessionPending.questionIndex + 1 ∨
        ((handleQuestionResponse sim0 absFB0 0 oraclesOk sessionPending
              (str "yes")).1.questionIndex = sessionPending.questionIndex ∧
          (handleQuestionResponse sim0 absFB0 0 oraclesOk sessionPending
              (str "yes")).1.phase = str "await_question"))) ∧
    (confirmMatch (pyStrip (str "yes")) = false → rejectMatch (pyStrip (str "yes")) = true →
      (handleQuestionResponse sim0 absFB0 0 oraclesOk sessionPending (str "yes")).1 =
        clearPendingClarification sessionPending) ∧
    (confirmMatch (pyStrip (str "yes")) = false → rejectMatch (pyStrip (str "yes")) = false →
      handleQuestionResponse sim0 absFB0 0 oraclesOk sessionPending (str "yes") =
        handleQuestionResponse sim0 absFB0 0 oraclesOk
          (clearPendingClarification sessionPending) (str "yes")) ∧
    ((handleQuestionResponse sim0 absFB0 0 oraclesOk sessionPending
        (str "yes")).1.pendingFieldId = none ∨
      ∃ q', currentQuestion (handleQuestionResponse sim0 absFB0 0 oraclesOk sessionPending
          (str "yes")).1 = some q' ∧
        (handleQuestionResponse sim0 absFB0 0 oraclesOk sessionPending
            (str "yes")).1.pendingFieldId = some q'.id) :=
  pending_clarification_resolution sim0 absFB0 0 oraclesOk sessionPending (str "yes")
    uploadQuestion profile0 (by decide) (by decide) (by decide)
